import Mathlib

/-!
Shallow embedding of the core game logic of the asteroids repository
(files assets.py, utility.py, game_state.py), together with theorems
settling the specification claims about it.

Conventions of the embedding:
* Python floats are modelled as exact rationals; the square root,
  cosine and sine used by pygame vectors are passed in as explicit
  function parameters (sq, cosD, sinD, hypotF) since they are not
  rational-valued, and theorems that depend on a concrete value of
  one of them carry the corresponding true real-number fact as a
  hypothesis (for instance sinD 90 = 1).
* Calls to the random module are modelled by oracle streams
  (functions from a draw counter to the drawn value); an unbounded
  rejection-sampling loop is modelled by a fuel-bounded search that
  returns none when the fuel runs out.
* pygame side effects (loading images, playing sounds, blitting)
  carry no game-logic state and are not modelled; where a sound
  channel object flows through constructor arguments it is kept as
  an inert PyVal value so that argument passing stays visible.
-/

/-- A pygame.math.Vector2, with exact rational components. -/
structure Vec2 where
  x : ℚ
  y : ℚ
deriving DecidableEq, Repr

def Vec2.add (a b : Vec2) : Vec2 := ⟨a.x + b.x, a.y + b.y⟩

def Vec2.scale (c : ℚ) (v : Vec2) : Vec2 := ⟨c * v.x, c * v.y⟩

def Vec2.neg (v : Vec2) : Vec2 := ⟨-v.x, -v.y⟩

/-- Vector2.magnitude_squared(): x*x + y*y. -/
def Vec2.magSq (v : Vec2) : ℚ := v.x * v.x + v.y * v.y

/-- Vector2.rotate(angle): counterclockwise rotation by angle degrees.
cosD and sinD stand for the real cosine/sine of an angle in degrees. -/
def Vec2.rotateDeg (cosD sinD : ℚ → ℚ) (angle : ℚ) (v : Vec2) : Vec2 :=
  ⟨v.x * cosD angle - v.y * sinD angle, v.x * sinD angle + v.y * cosD angle⟩

/-- Vector2.normalize(): raises ValueError (modelled as none) on a
zero-length vector, otherwise divides both components by the magnitude.
sq stands for the real square root. -/
def Vec2.normalize? (sq : ℚ → ℚ) (v : Vec2) : Option Vec2 :=
  if v.magSq = 0 then none
  else some ⟨v.x / sq v.magSq, v.y / sq v.magSq⟩

/-- Total wrapper for Vector2.normalize used where every caller passes a
nonzero vector (the zero-vector error case is proved unreachable there). -/
def Vec2.normalizeT (sq : ℚ → ℚ) (v : Vec2) : Vec2 :=
  (v.normalize? sq).getD ⟨0, 0⟩

/-- An inert Python value slot: a mixer channel object, a plain int, or
None.  Used for the explosion_channel constructor argument of Asteroid,
whose call sites do not always pass a channel. -/
inductive PyVal where
  | soundChannel (id : ℤ)
  | intVal (n : ℤ)
  | noneVal
deriving DecidableEq, Repr

/-- A pygame.Rect: left/top position plus size, integer coordinates,
y growing downwards (bottom = top + height). -/
structure PyRect where
  left : ℤ
  top : ℤ
  width : ℤ
  height : ℤ
deriving DecidableEq, Repr

def PyRect.bottom (r : PyRect) : ℤ := r.top + r.height

def PyRect.right (r : PyRect) : ℤ := r.left + r.width

/-- Assigning rect.top moves the rect, keeping its size. -/
def PyRect.setTop (v : ℤ) (r : PyRect) : PyRect := { r with top := v }

/-- Assigning rect.bottom moves the rect: top becomes v - height. -/
def PyRect.setBottom (v : ℤ) (r : PyRect) : PyRect := { r with top := v - r.height }

def PyRect.setLeft (v : ℤ) (r : PyRect) : PyRect := { r with left := v }

/-- Assigning rect.right moves the rect: left becomes v - width. -/
def PyRect.setRight (v : ℤ) (r : PyRect) : PyRect := { r with left := v - r.width }

/-- assets.py _check_collide (lines 1146-1167): screen wraparound.
Four mutually exclusive elif branches, priority bottom, top, right, left. -/
def checkCollide (newpos area : PyRect) : PyRect :=
  if newpos.bottom < 0 then newpos.setTop area.height
  else if newpos.top > area.height then newpos.setBottom 0
  else if newpos.right < 0 then newpos.setLeft area.width
  else if newpos.left > area.width then newpos.setRight 0
  else newpos

/-- A Shot (assets.py lines 451-503): velocity = power * direction,
rect centered at the initial position; image handling is not modelled. -/
structure ShotM where
  direction : Vec2
  pos : Vec2
  velocity : Vec2
  lifetime : ℚ
  lifespan : ℚ
deriving DecidableEq, Repr

/-- Shot.__init__: stores the direction, centers the rect on
initial_position, velocity = power * direction, lifetime accumulator 0. -/
def mkShot (direction initialPosition : Vec2) (power lifespan : ℚ) : ShotM :=
  { direction := direction
    pos := initialPosition
    velocity := Vec2.scale power direction
    lifetime := 0
    lifespan := lifespan }

/-- A Gun (assets.py lines 416-448).  The field fireRate holds the
constructor argument fire_rate, which at the Player call site is the
per-shot interval in milliseconds: game_state.py line 616 passes
1000 / PLAYER_FIRE_RATE. -/
structure GunM where
  fireRate : ℚ
  shotPower : ℚ
  lastShotTime : ℚ
  bulletLifespan : ℚ
deriving DecidableEq, Repr

/-- Gun.__init__: records the tunables and sets _last_shot_time = 0.
The owner reference is replaced by passing the owner geometry to fire. -/
def mkGun (fireRate shotPower lifespan : ℚ) : GunM :=
  { fireRate := fireRate
    shotPower := shotPower
    lastShotTime := 0
    bulletLifespan := lifespan }

/-- Gun.fire(current_time) (assets.py lines 429-448): returns the updated
gun and, unless gated by the fire rate, a new Shot spawned at
owner.rect.center + owner.facing_direction * (owner.rect.height / 2).
ownerCenter, ownerFacing, ownerHeight are the owner attributes read. -/
def gunFire (g : GunM) (currentTime : ℚ) (ownerCenter ownerFacing : Vec2)
    (ownerHeight : ℚ) : GunM × Option ShotM :=
  if currentTime < g.lastShotTime + g.fireRate then (g, none)
  else
    let spawnPoint := ownerCenter.add (Vec2.scale (ownerHeight / 2) ownerFacing)
    ({ g with lastShotTime := currentTime },
     some (mkShot ownerFacing spawnPoint g.shotPower g.bulletLifespan))

/-- The drag term of Player._calc_velocity (assets.py lines 230-233):
0.5 * fluid_density * velocity.magnitude_squared(). -/
def dragOf (fluidDensity : ℚ) (velocity : Vec2) : ℚ :=
  1 / 2 * fluidDensity * velocity.magSq

/-- Player._calc_velocity (assets.py lines 229-248).  Returns the new
velocity and the velocity_direction that was stored, or none if the
normalize call would raise.  The source guard velocity.magnitude() == 0
holds exactly when magnitude_squared is 0, which is how it is written
here (the real square root of a nonnegative number is 0 iff the number
is 0). -/
def calcVelocity (sq : ℚ → ℚ) (fluidDensity mass accelerationMagnitude : ℚ)
    (facingDirection velocity : Vec2) (deltaTime : ℚ) :
    Option (Vec2 × Vec2) :=
  let drag := dragOf fluidDensity velocity
  let vdir? : Option Vec2 :=
    if velocity.magSq = 0 then some ⟨0, 0⟩ else velocity.normalize? sq
  match vdir? with
  | none => none
  | some velocityDirection =>
      let totalForces :=
        (Vec2.scale accelerationMagnitude facingDirection).add
          (Vec2.scale drag velocityDirection.neg)
      let acceleration := Vec2.scale (1 / mass) totalForces
      some (velocity.add (Vec2.scale deltaTime acceleration), velocityDirection)

/-- An Asteroid (assets.py lines 506-535): the fields of __init__ that
carry game state.  velocity is the scalar speed, direction is stored
normalized, pos is the rect center.  Image and mask handling is not
modelled; image_number selects the sprite variant. -/
structure AsteroidM where
  state : ℤ
  imageNumber : ℤ
  velocity : ℚ
  direction : Vec2
  spinAmount : ℚ
  pos : Vec2
  explosionChannel : PyVal
deriving DecidableEq, Repr

/-- Asteroid.__init__, with the Python parameter order and the Python
defaults explosion_channel=None and state=3.  The direction argument is
stored normalized (self._direction = direction.normalize()); every call
site in the sources passes a nonzero direction, so the total normalize
wrapper is used here. -/
def mkAsteroid (sq : ℚ → ℚ) (velocity : ℚ) (direction : Vec2)
    (imageNumber : ℤ) (spinAmount : ℚ) (pos : Vec2)
    (explosionChannel : PyVal := PyVal.noneVal) (state : ℤ := 3) :
    AsteroidM :=
  { state := state
    imageNumber := imageNumber
    velocity := velocity
    direction := direction.normalizeT sq
    spinAmount := spinAmount
    pos := pos
    explosionChannel := explosionChannel }

/-- int(n / 2) in Python: true division then truncation toward zero. -/
def pyHalf (n : ℤ) : ℤ := Int.tdiv n 2

/-- The rejection loop second = randint(0,2) repeated while it equals a
value to avoid.  draw is the randint oracle, k the draw counter; returns
the accepted value and the next counter, or none when the fuel runs out. -/
def sampleNe (draw : ℕ → ℤ) (avoid : ℤ) : ℕ → ℕ → Option (ℤ × ℕ)
  | 0, _ => none
  | fuel + 1, k =>
      let v := draw k
      if v = avoid then sampleNe draw avoid fuel (k + 1) else some (v, k + 1)

/-- The for i in range(spawn_cycles) loop of Asteroid.hit: each cycle
draws first_image_number, rejection-samples a different
second_image_number, and appends the two mirrored children rotated by
plus and minus rotation * (i + 1).  Both children of a cycle are built
with the full 7-argument constructor call, passing the parent channel
and the decremented state. -/
def hitPairsLoop (sq cosD sinD : ℚ → ℚ) (draw : ℕ → ℤ) (fuel : ℕ)
    (rotation newVelocity spinAmount : ℚ) (dir center : Vec2)
    (chan : PyVal) (childState : ℤ) :
    ℕ → ℕ → ℕ → List AsteroidM → Option (List AsteroidM × ℕ)
  | 0, _, k, acc => some (acc, k)
  | cycles + 1, i, k, acc =>
      let first := draw k
      match sampleNe draw first fuel (k + 1) with
      | none => none
      | some (second, kNext) =>
          let reflect := rotation * ((i : ℚ) + 1)
          let a1 := mkAsteroid sq newVelocity
            (dir.rotateDeg cosD sinD reflect) first spinAmount center
            chan childState
          let a2 := mkAsteroid sq newVelocity
            (dir.rotateDeg cosD sinD (-reflect)) second spinAmount center
            chan childState
          hitPairsLoop sq cosD sinD draw fuel rotation newVelocity
            spinAmount dir center chan childState cycles (i + 1) kNext
            (acc ++ [a1, a2])

/-- Asteroid.hit(velocity_scale, number_to_spawn) (assets.py lines
562-643).  Result some none is the Python return None for a state-1
asteroid; the outer none is fuel exhaustion of a rejection sampler.
In the odd case the final 180-degree child is built by the 6-positional-
argument call Asteroid(new_velocity, rotate(180), image_number,
spin_amount, rect.center, state): the sixth argument binds the
explosion_channel parameter, so that child receives the integer
childState as its channel and the default state 3. -/
def asteroidHit (sq cosD sinD : ℚ → ℚ) (draw : ℕ → ℤ) (fuel : ℕ)
    (a : AsteroidM) (velocityScale : ℚ) (numberToSpawn : ℤ) :
    Option (Option (List AsteroidM)) :=
  if 1 < a.state then
    let childState := a.state - 1
    let newVelocity := a.velocity * velocityScale
    let rce : ℚ × ℤ × Bool :=
      if numberToSpawn = 2 then
        (180 / (numberToSpawn : ℚ), pyHalf numberToSpawn, true)
      else if Int.emod numberToSpawn 2 = 0 then
        (180 / ((numberToSpawn : ℚ) - 1), pyHalf numberToSpawn, true)
      else
        (180 / (numberToSpawn : ℚ), pyHalf (numberToSpawn - 1), false)
    match hitPairsLoop sq cosD sinD draw fuel rce.1 newVelocity
        a.spinAmount a.direction a.pos a.explosionChannel childState
        rce.2.1.toNat 0 0 [] with
    | none => none
    | some (newList, k) =>
        if rce.2.2 then some (some newList)
        else
          match newList.getLast? with
          | some lastA =>
              match sampleNe draw lastA.imageNumber fuel k with
              | none => none
              | some (imageNumber, _) =>
                  some (some (newList ++
                    [mkAsteroid sq newVelocity
                      (a.direction.rotateDeg cosD sinD 180) imageNumber
                      a.spinAmount a.pos (PyVal.intVal childState)]))
          | none =>
              let imageNumber := draw k
              some (some (newList ++
                [mkAsteroid sq newVelocity
                  (a.direction.rotateDeg cosD sinD 180) imageNumber
                  a.spinAmount a.pos (PyVal.intVal childState)]))
  else some none

/-- math.fabs on an exact rational, written as a plain conditional so
that it evaluates by definitional unfolding. -/
def pyAbs (q : ℚ) : ℚ := if q < 0 then -q else q

/-- math.fabs on an integer randint result. -/
def pyAbsZ (n : ℤ) : ℤ := if n < 0 then -n else n

/-- utility.random_angle_vector (utility.py lines 76-82): starting from
the zero vector, resample both components while both absolute values
are below min_angle.  draw is the random.uniform(-1.0, 1.0) oracle. -/
def randomAngleVectorGo (draw : ℕ → ℚ) (minAngle : ℚ) :
    ℕ → ℕ → Vec2 → Option Vec2
  | 0, _, _ => none
  | fuel + 1, k, d =>
      if pyAbs d.x < minAngle ∧ pyAbs d.y < minAngle then
        randomAngleVectorGo draw minAngle fuel (k + 2) ⟨draw k, draw (k + 1)⟩
      else some d

def randomAngleVector (draw : ℕ → ℚ) (minAngle : ℚ) (fuel : ℕ) :
    Option Vec2 :=
  randomAngleVectorGo draw minAngle fuel 0 ⟨0, 0⟩

/-- utility.random_position (utility.py lines 90-98): resample integer
positions while the distance to the avoid point is below min_distance.
hypotF stands for math.hypot; draw yields the randint(0, width) and
randint(0, height) pair.  The accumulator holds the last sampled
position; if the loop body never runs (min_distance ≤ 0) the Python
code raises NameError, modelled by the initial none accumulator. -/
def randomPositionGo (hypotF : ℚ → ℚ → ℚ) (draw : ℕ → ℤ × ℤ)
    (minDistance cx cy : ℚ) : ℕ → ℕ → ℚ → Option Vec2 → Option Vec2
  | 0, _, _, _ => none
  | fuel + 1, k, distance, current =>
      if distance < minDistance then
        let p := draw k
        randomPositionGo hypotF draw minDistance cx cy fuel (k + 1)
          (hypotF (pyAbs ((p.1 : ℚ) - cx)) (pyAbs ((p.2 : ℚ) - cy)))
          (some ⟨(p.1 : ℚ), (p.2 : ℚ)⟩)
      else current

def randomPosition (hypotF : ℚ → ℚ → ℚ) (draw : ℕ → ℤ × ℤ)
    (minDistance : ℚ) (cx cy : ℚ) (fuel : ℕ) : Option Vec2 :=
  randomPositionGo hypotF draw minDistance cx cy fuel 0 0 none

/-- The spin_amount loop of Asteroid.spawn: resample
randint(-200, 200) while the absolute value is below 100. -/
def spinLoop (draw : ℕ → ℤ) : ℕ → ℕ → ℤ → Option ℤ
  | 0, _, _ => none
  | fuel + 1, k, spin =>
      if pyAbsZ spin < 100 then spinLoop draw fuel (k + 1) (draw k)
      else some spin

/-- The while number_of_asteroids > 0 loop of Asteroid.spawn (assets.py
lines 645-684).  Each iteration draws a speed, a direction satisfying
the random_angle_vector loop, an image number, a position away from the
player, and a spin, then appends Asteroid(speed, direction,
image_number, spin_amount, position, explosion_channel).  The oracle
families are indexed by the iteration number i. -/
def asteroidSpawnGo (sq : ℚ → ℚ) (hypotF : ℚ → ℚ → ℚ)
    (speedDraw : ℕ → ℤ) (dirDraw : ℕ → ℕ → ℚ) (imgDraw : ℕ → ℤ)
    (posDraw : ℕ → ℕ → ℤ × ℤ) (spinDraw : ℕ → ℕ → ℤ)
    (minAngle : ℚ) (avoidCx avoidCy : ℚ) (minPlayerDistance : ℚ)
    (chan : PyVal) (fuel : ℕ) :
    ℕ → ℕ → List AsteroidM → Option (List AsteroidM)
  | 0, _, acc => some acc
  | n + 1, i, acc =>
      let speed := speedDraw i
      match randomAngleVector (dirDraw i) minAngle fuel with
      | none => none
      | some direction =>
          let imageNumber := imgDraw i
          match randomPosition hypotF (posDraw i) minPlayerDistance
              avoidCx avoidCy fuel with
          | none => none
          | some position =>
              match spinLoop (spinDraw i) fuel 0 0 with
              | none => none
              | some spin =>
                  asteroidSpawnGo sq hypotF speedDraw dirDraw imgDraw
                    posDraw spinDraw minAngle avoidCx avoidCy
                    minPlayerDistance chan fuel n (i + 1)
                    (acc ++ [mkAsteroid sq (speed : ℚ) direction
                      imageNumber (spin : ℚ) position chan])

/-- Asteroid.spawn.  min_speed/max_speed bound the randint speed draw
and width/height bound the position draws; the draws themselves come
from the oracle streams, so those four tunables do not appear in the
body (exactly as the random module hides them behind randint). -/
def asteroidSpawn (sq : ℚ → ℚ) (hypotF : ℚ → ℚ → ℚ)
    (speedDraw : ℕ → ℤ) (dirDraw : ℕ → ℕ → ℚ) (imgDraw : ℕ → ℤ)
    (posDraw : ℕ → ℕ → ℤ × ℤ) (spinDraw : ℕ → ℕ → ℤ)
    (numberOfAsteroids : ℕ) (minAngle : ℚ) (avoidCx avoidCy : ℚ)
    (minPlayerDistance : ℚ) (chan : PyVal) (fuel : ℕ) :
    Option (List AsteroidM) :=
  asteroidSpawnGo sq hypotF speedDraw dirDraw imgDraw posDraw spinDraw
    minAngle avoidCx avoidCy minPlayerDistance chan fuel
    numberOfAsteroids 0 []

/-- Main.EXTRA_LIFE_TARGET (game_state.py line 525). -/
def EXTRA_LIFE_TARGET : ℤ := 10000

/-- Main.BASE_SCORE (game_state.py line 500). -/
def BASE_SCORE : ℤ := 150

/-- Main.STARTING_LIVES (game_state.py line 503). -/
def STARTING_LIVES : ℤ := 3

/-- Main.LEVEL_TRANSITION_TIME in milliseconds (game_state.py line 499). -/
def LEVEL_TRANSITION_TIME : ℚ := 1000

/-- Main.PLAYER_DEATH_TIMER in milliseconds (game_state.py line 545). -/
def PLAYER_DEATH_TIMER : ℚ := 1000

/-- Main._add_extra_life (game_state.py lines 786-789) on the pair
(extra_life_tracker, player.lives). -/
def addExtraLife (tracker lives : ℤ) : ℤ × ℤ :=
  if tracker ≥ EXTRA_LIFE_TARGET then
    (tracker % EXTRA_LIFE_TARGET, lives + 1)
  else (tracker, lives)

/-- Python list.insert(i, x): insert before index i, clamping to the end. -/
def pyInsertIdx (x : ℤ) : ℕ → List ℤ → List ℤ
  | 0, l => x :: l
  | _ + 1, [] => [x]
  | i + 1, h :: t => h :: pyInsertIdx x i t

/-- The index search done by the for/else loops of Highscores.__init__:
first index whose element satisfies the predicate, none when the loop
ends without break. -/
def pyFindIdx (p : ℤ → Bool) : List ℤ → Option ℕ
  | [] => none
  | h :: t => if p h then some 0 else (pyFindIdx p t).map (· + 1)

/-- One step of Python sorted(..., reverse=True): stable descending
insertion of x into an already descending list. -/
def insertDescStep (x : ℤ) : List ℤ → List ℤ
  | [] => [x]
  | h :: t => if h ≥ x then h :: insertDescStep x t else x :: h :: t

/-- Python sorted(l, reverse=True) on a list of ints. -/
def sortDesc (l : List ℤ) : List ℤ := l.foldr insertDescStep []

/-- The score-list update of Highscores.__init__ (assets.py lines
876-911), given the list parsed from highscores.txt and the new score.
Returns the updated list (before the final sort), the value of
new_highscore_position (-1 when unset) and the new_highscore flag.
The file reading and rendering around it are I/O and are not modelled. -/
def highscoresInsert (highscores : List ℤ) (newScore : ℤ) :
    List ℤ × ℤ × Bool :=
  if 5 ≤ highscores.length then
    match pyFindIdx
        (fun score => decide (0 < newScore) && decide (score < newScore))
        (sortDesc highscores) with
    | some i => ((pyInsertIdx newScore i highscores).dropLast, (i : ℤ), true)
    | none => (highscores, -1, false)
  else if 0 < newScore then
    match pyFindIdx
        (fun score => decide (0 < newScore) && decide (score ≤ newScore))
        (sortDesc highscores) with
    | some i => (pyInsertIdx newScore i highscores, (i : ℤ), true)
    | none => (highscores ++ [newScore], (highscores.length : ℤ), true)
  else (highscores, -1, false)

/-- The list Highscores.__init__ ends up with after its final
highscores.sort(reverse=True), which is also what it writes back to
highscores.txt. -/
def highscoresFinal (highscores : List ℤ) (newScore : ℤ) : List ℤ :=
  sortDesc (highscoresInsert highscores newScore).1

/-- Modelled from the spec wording of the highscore property: the new
score inserted at its sorted-descending position (before the first
strictly smaller entry). -/
def specInsertDesc (n : ℤ) : List ℤ → List ℤ
  | [] => [n]
  | h :: t => if n > h then n :: h :: t else h :: specInsertDesc n t

/-- The game states of game_state.GameStates. -/
inductive GameSt where
  | intro
  | controls
  | options
  | mainState
  | endState
deriving DecidableEq, Repr

/-- The Player fields read and written by the Main tick logic
(assets.py Player).  Kinematic fields (velocity, facing direction,
rect, timers, animation counters) live in the render pass and are not
part of the tick model. -/
structure PlayerSt where
  lives : ℤ
  alive : Bool
  respawning : Bool
  inHyperspace : Bool
  remainsAlive : Bool
  gun : GunM
deriving DecidableEq, Repr

/-- The Enemy fields read by the Main tick logic: the EnemyStates value
(SMALL = 1, BIG = 2), the gun, and the primed flag. -/
structure EnemySt where
  stateVal : ℤ
  gun : GunM
  primed : Bool
deriving DecidableEq, Repr

/-- The mutable per-session state of game_state.Main. -/
structure MainSt where
  score : ℤ
  extraLifeTracker : ℤ
  playerOutOfLives : Bool
  level : ℤ
  player : PlayerSt
  asteroids : List AsteroidM
  enemies : List EnemySt
  shots : ℤ
  enemyShots : ℤ
  playerHitTime : ℚ
  prevEnemySpawn : ℚ
  levelStartTime : ℚ
  enemySpawned : Bool
  asteroidsSpawned : Bool
  levelStarted : Bool
  playerHasControl : Bool
  playerIsVulnerable : Bool
  seen : Bool
deriving DecidableEq, Repr

/-- The config.ini tunables and constants read by the Main tick logic. -/
structure MainCfg where
  playerFireRate : ℚ
  playerShotPower : ℚ
  playerBulletLifespan : ℚ
  enemyFireRate : ℚ
  enemyShotPower : ℚ
  enemyBulletLifespan : ℚ
  timeBetweenEnemySpawns : ℚ
  enemyOverlapOffset : ℚ
  minBrokenAsteroids : ℤ
  maxBrokenAsteroids : ℤ
  newAsteroidVelocityScale : ℚ
  maxNewAsteroids : ℤ
  levelAsteroidsOffset : ℤ
  minAsteroidDirAngle : ℚ
  minAsteroidDist : ℚ
  explosionChannel : PyVal
  fuel : ℕ

/-- The per-tick oracle: outcomes of the pygame collision tests (mask
collisions depend on sprite geometry outside this model), the random
draws of the tick, and the snapshot of the player rect geometry that
Gun.fire reads. -/
structure TickOracle where
  hyperspaceSurvives : Bool
  playerCollisions : ℕ
  enemyShotSel : ℕ → Bool
  newEnemyGen : ℚ
  astHitSel : ℕ → Option Bool
  numToSpawnDraw : ℕ → ℤ
  hitImgDraw : ℕ → ℕ → ℤ
  spawnSpeedDraw : ℕ → ℤ
  spawnDirDraw : ℕ → ℕ → ℚ
  spawnImgDraw : ℕ → ℤ
  spawnPosDraw : ℕ → ℕ → ℤ × ℤ
  spawnSpinDraw : ℕ → ℕ → ℤ
  playerCenter : Vec2
  playerFacing : Vec2
  playerHeight : ℚ

/-- The per-frame input dictionary built by Main.get_input. -/
structure InputDict where
  nextState : Option GameSt
  playerHyperspace : Bool
  playerFire : Bool
  playerEngineOn : Bool
  playerEngineOff : Bool
  playerTurn : Option ℤ
deriving DecidableEq, Repr

/-- Main._first_render (game_state.py lines 593-652): resets the
session state and builds a fresh player.  Rendering and scoreboard
construction are presentation-side.  level_start_time is
get_ticks() + LEVEL_TRANSITION_TIME, sampled here as the tick time. -/
def firstRender (cfg : MainCfg) (t : ℚ) : MainSt :=
  { score := 0
    extraLifeTracker := 0
    playerOutOfLives := false
    level := 1
    player :=
      { lives := STARTING_LIVES
        alive := true
        respawning := false
        inHyperspace := false
        remainsAlive := true
        gun := mkGun (1000 / cfg.playerFireRate) cfg.playerShotPower
          cfg.playerBulletLifespan }
    asteroids := []
    enemies := []
    shots := 0
    enemyShots := 0
    playerHitTime := 0
    prevEnemySpawn := t + LEVEL_TRANSITION_TIME
    levelStartTime := t + LEVEL_TRANSITION_TIME
    enemySpawned := false
    asteroidsSpawned := false
    levelStarted := false
    playerHasControl := true
    playerIsVulnerable := true
    seen := true }

/-- Main._check_player_control (game_state.py lines 830-832). -/
def checkPlayerControl (s : MainSt) : MainSt :=
  { s with playerHasControl := s.player.alive && !s.player.inHyperspace }

/-- Main._check_player_vulnerability (game_state.py lines 834-837):
re-runs the control check, then combines it with not respawning. -/
def checkPlayerVulnerability (s : MainSt) : MainSt :=
  let s := checkPlayerControl s
  { s with playerIsVulnerable := s.playerHasControl && !s.player.respawning }

/-- Main._handle_input (game_state.py lines 660-673).  engine_on,
engine_off and turn touch only kinematic and animation fields, which
are outside the tick state.  Player.hyperspace sets in_hyperspace,
zeroes the velocity (kinematic), teleports the rect (kinematic) and
rolls the survival chance, whose outcome the oracle supplies.  A
successful gun.fire adds the shot to the shots group. -/
def handleInput (o : TickOracle) (input : InputDict) (t : ℚ)
    (s : MainSt) : MainSt :=
  if s.playerHasControl then
    let s :=
      if input.playerHyperspace then
        { s with player :=
          { s.player with inHyperspace := true,
                          remainsAlive := o.hyperspaceSurvives } }
      else s
    if input.playerFire then
      let fired := gunFire s.player.gun t o.playerCenter o.playerFacing
        o.playerHeight
      match fired.2 with
      | some _ =>
          { s with player := { s.player with gun := fired.1 },
                   shots := s.shots + 1 }
      | none => { s with player := { s.player with gun := fired.1 } }
    else s
  else s

/-- Main._kill_player (game_state.py lines 692-711): decrement lives,
clear alive, record the hit time, and report whether lives < 1.  The
DeadPlayer wreckage and sprite-group moves are presentation-side. -/
def killPlayer (t : ℚ) (s : MainSt) : MainSt × Bool :=
  let p := { s.player with lives := s.player.lives - 1, alive := false }
  ({ s with player := p, playerHitTime := t }, decide (p.lives < 1))

/-- The vulnerable-collision block of Main.update (game_state.py lines
886-890): if the player is vulnerable and the merged collision dict is
nonempty or the hyperspace roll killed them, run _kill_player and store
its result in player_out_of_lives. -/
def tickKill (o : TickOracle) (t : ℚ) (s : MainSt) : MainSt :=
  if s.playerIsVulnerable then
    if 0 < o.playerCollisions ∨ s.player.remainsAlive = false then
      let r := killPlayer t s
      { r.1 with playerOutOfLives := r.2 }
    else s
  else s

/-- Main._respawn_player via Player.respawn with reset=True
(game_state.py lines 713-718, assets.py lines 152-161): alive and
respawning set, remains_alive restored; timers and position are
kinematic. -/
def respawnPlayer (s : MainSt) : MainSt :=
  { s with player :=
    { s.player with alive := true, respawning := true, remainsAlive := true } }

/-- The respawn-delay check of Main.update (game_state.py lines
897-901). -/
def tickRespawn (t : ℚ) (s : MainSt) : MainSt :=
  if s.player.alive = false ∧ s.playerOutOfLives = false ∧
      PLAYER_DEATH_TIMER ≤ t - s.playerHitTime then
    respawnPlayer s
  else s

/-- The state changes of one iteration of the Main._shoot_enemies loop
(game_state.py lines 725-732): score and tracker gain
BASE_SCORE * state.value, the enemy-spawn gate reopens with the overlap
offset. -/
def shootEnemyUpd (cfg : MainCfg) (t : ℚ) (e : EnemySt) (s : MainSt) :
    MainSt :=
  { s with score := s.score + BASE_SCORE * e.stateVal,
           extraLifeTracker :=
             s.extraLifeTracker + BASE_SCORE * e.stateVal,
           enemySpawned := false,
           prevEnemySpawn := t - cfg.enemyOverlapOffset }

/-- The for loop of Main._shoot_enemies over the destroyed enemies. -/
def shootEnemiesGo (cfg : MainCfg) (sel : ℕ → Bool) (t : ℚ) :
    List EnemySt → ℕ → MainSt → MainSt
  | [], _, s => s
  | e :: rest, i, s =>
      if sel i then
        shootEnemiesGo cfg sel t rest (i + 1) (shootEnemyUpd cfg t e s)
      else shootEnemiesGo cfg sel t rest (i + 1) s

/-- The enemies left after groupcollide(enemies, shots, True, True):
those the oracle says were not hit. -/
def enemySurvivors (sel : ℕ → Bool) : List EnemySt → ℕ → List EnemySt
  | [], _ => []
  | e :: rest, i =>
      if sel i then enemySurvivors sel rest (i + 1)
      else e :: enemySurvivors sel rest (i + 1)

/-- Main._shoot_enemies (game_state.py lines 720-735); stopping the
enemy attack channel is audio-only. -/
def shootEnemies (cfg : MainCfg) (o : TickOracle) (t : ℚ)
    (s : MainSt) : MainSt :=
  let s1 := shootEnemiesGo cfg o.enemyShotSel t s.enemies 0 s
  { s1 with enemies := enemySurvivors o.enemyShotSel s.enemies 0 }

/-- Main._spawn_enemy (game_state.py lines 737-757): the state weight is
utility.normalize(score, 0, 40000) compared against random.random();
SMALL on weight ≥ gen, else BIG.  The new enemy gun is built with
fire_rate * state.value where fire_rate = 1000 / ENEMY_FIRE_RATE
(assets.py line 346, game_state.py line 749).  The position/direction
sampling of Enemy.spawn affects only kinematic fields. -/
def spawnEnemy (cfg : MainCfg) (o : TickOracle) (t : ℚ)
    (s : MainSt) : MainSt :=
  let weight : ℚ := (s.score : ℚ) / 40000
  let stateVal : ℤ := if weight ≥ o.newEnemyGen then 1 else 2
  let newEnemy : EnemySt :=
    { stateVal := stateVal
      gun := mkGun ((1000 / cfg.enemyFireRate) * (stateVal : ℚ))
        cfg.enemyShotPower cfg.enemyBulletLifespan
      primed := true }
  { s with enemies := s.enemies ++ [newEnemy], prevEnemySpawn := t,
           enemySpawned := true }

/-- The enemy-spawn gate of Main.update (game_state.py lines 905-908). -/
def tickEnemySpawn (cfg : MainCfg) (o : TickOracle) (t : ℚ)
    (s : MainSt) : MainSt :=
  if s.enemySpawned = false ∧
      cfg.timeBetweenEnemySpawns ≤ t - s.prevEnemySpawn then
    spawnEnemy cfg o t s
  else s

/-- The asteroids removed by the two groupcollides of
Main._check_asteroid_collisions, paired with whether one of the
consuming shots belongs to the Player (the isinstance check). -/
def shotAsteroidPairs (sel : ℕ → Option Bool) :
    List AsteroidM → ℕ → List (AsteroidM × Bool)
  | [], _ => []
  | a :: rest, i =>
      match sel i with
      | some byPlayer => (a, byPlayer) :: shotAsteroidPairs sel rest (i + 1)
      | none => shotAsteroidPairs sel rest (i + 1)

/-- The asteroids that survive the two groupcollides. -/
def keptAsteroids (sel : ℕ → Option Bool) :
    List AsteroidM → ℕ → List AsteroidM
  | [], _ => []
  | a :: rest, i =>
      match sel i with
      | some _ => keptAsteroids sel rest (i + 1)
      | none => a :: keptAsteroids sel rest (i + 1)

/-- The score award of one iteration of the
Main._check_asteroid_collisions loop: int(BASE_SCORE / asteroid.state)
added to score and tracker when a player shot consumed the asteroid
(int() truncates toward zero, which Int.tdiv matches; the float
division is exact for the states 1, 2 and 3 in play). -/
def astScoreUpd (a : AsteroidM) (s : MainSt) : MainSt :=
  { s with score := s.score + Int.tdiv BASE_SCORE a.state,
           extraLifeTracker :=
             s.extraLifeTracker + Int.tdiv BASE_SCORE a.state }

/-- asteroids.add(new_asteroids) for the children of one hit. -/
def astAddChildren (children : List AsteroidM) (s : MainSt) : MainSt :=
  { s with asteroids := s.asteroids ++ children }

/-- The for loop of Main._check_asteroid_collisions (game_state.py
lines 771-784): per destroyed asteroid, award the score if a player
shot consumed it, draw number_to_spawn =
randint(MIN_BROKEN_ASTEROIDS, MAX_BROKEN_ASTEROIDS), and add the
children returned by hit. -/
def astCollGo (sq cosD sinD : ℚ → ℚ) (cfg : MainCfg) (o : TickOracle) :
    List (AsteroidM × Bool) → ℕ → MainSt → Option MainSt
  | [], _, s => some s
  | (a, byPlayer) :: rest, j, s =>
      let s := if byPlayer then astScoreUpd a s else s
      match asteroidHit sq cosD sinD (o.hitImgDraw j) cfg.fuel a
          cfg.newAsteroidVelocityScale (o.numToSpawnDraw j) with
      | none => none
      | some none => astCollGo sq cosD sinD cfg o rest (j + 1) s
      | some (some children) =>
          astCollGo sq cosD sinD cfg o rest (j + 1)
            (astAddChildren children s)

/-- Main._check_asteroid_collisions (game_state.py lines 759-784). -/
def checkAsteroidCollisions (sq cosD sinD : ℚ → ℚ) (cfg : MainCfg)
    (o : TickOracle) (s : MainSt) : Option MainSt :=
  let pairs := shotAsteroidPairs o.astHitSel s.asteroids 0
  astCollGo sq cosD sinD cfg o pairs 0
    { s with asteroids := keptAsteroids o.astHitSel s.asteroids 0 }

/-- Main._add_extra_life applied to the tick state. -/
def addExtraLifeSt (s : MainSt) : MainSt :=
  let r := addExtraLife s.extraLifeTracker s.player.lives
  { s with extraLifeTracker := r.1, player := { s.player with lives := r.2 } }

/-- Main._start_level_transition (game_state.py lines 791-803):
level up, clear the shots group, push both timers past the transition
delay, respawn the player with reset=False (flags only, remains_alive
untouched). -/
def startLevelTransition (t : ℚ) (s : MainSt) : MainSt :=
  { s with level := s.level + 1
           shots := 0
           levelStartTime := t + LEVEL_TRANSITION_TIME
           prevEnemySpawn := t + LEVEL_TRANSITION_TIME
           player := { s.player with alive := true, respawning := true }
           asteroidsSpawned := false
           levelStarted := false }

/-- Main._start_next_level (game_state.py lines 805-821): spawn
min(MAX_NEW_ASTEROIDS, level + LEVEL_ASTEROIDS_OFFSET) asteroids;
scoreboard and music calls are presentation-side. -/
def startNextLevel (sq : ℚ → ℚ) (hypotF : ℚ → ℚ → ℚ) (cfg : MainCfg)
    (o : TickOracle) (s : MainSt) : Option MainSt :=
  let asteroidNumber := min cfg.maxNewAsteroids
    (s.level + cfg.levelAsteroidsOffset)
  match asteroidSpawn sq hypotF o.spawnSpeedDraw o.spawnDirDraw
      o.spawnImgDraw o.spawnPosDraw o.spawnSpinDraw asteroidNumber.toNat
      cfg.minAsteroidDirAngle o.playerCenter.x o.playerCenter.y
      cfg.minAsteroidDist cfg.explosionChannel cfg.fuel with
  | none => none
  | some wave =>
      some { s with asteroids := s.asteroids ++ wave,
                    asteroidsSpawned := true, levelStarted := true }

/-- The level-advance block of Main.update (game_state.py lines
914-918): when both groups are empty, first a transition if a wave had
been spawned, then the timed next-level start (two separate ifs). -/
def tickLevel (sq : ℚ → ℚ) (hypotF : ℚ → ℚ → ℚ) (cfg : MainCfg)
    (o : TickOracle) (t : ℚ) (s : MainSt) : Option MainSt :=
  if s.asteroids = [] ∧ s.enemies = [] then
    let s := if s.asteroidsSpawned then startLevelTransition t s else s
    if 0 ≤ t - s.levelStartTime then startNextLevel sq hypotF cfg o s
    else some s
  else some s

/-- Main._enemy_fire (game_state.py lines 823-828): every primed enemy
fires through its gun gate; the Shot payload is kinematic, only the
group count is tracked. -/
def enemyFireGo (t : ℚ) : List EnemySt → List EnemySt × ℤ
  | [] => ([], 0)
  | e :: rest =>
      let r := enemyFireGo t rest
      if e.primed then
        if t < e.gun.lastShotTime + e.gun.fireRate then (e :: r.1, r.2)
        else
          ({ e with gun := { e.gun with lastShotTime := t } } :: r.1,
           r.2 + 1)
      else (e :: r.1, r.2)

def enemyFire (t : ℚ) (s : MainSt) : MainSt :=
  let r := enemyFireGo t s.enemies
  { s with enemies := r.1, enemyShots := s.enemyShots + r.2 }

/-- Main._prepare_next_state (game_state.py lines 654-658): clears the
seen flag; channel stops and asset-list clearing are presentation. -/
def prepareNextState (s : MainSt) : MainSt := { s with seen := false }

/-- Main.update (game_state.py lines 871-927), one tick.  t is the
pygame.time.get_ticks() sample.  Music and the enemy-attack channel are
audio-only.  End.setup only feeds the presentation of the End screen.
Returns none when one of the rejection samplers runs out of fuel,
otherwise the updated state and the returned next state (itself an
Option: Python returns None on quit). -/
def mainUpdate (sq cosD sinD : ℚ → ℚ) (hypotF : ℚ → ℚ → ℚ)
    (cfg : MainCfg) (o : TickOracle) (input : InputDict) (t : ℚ)
    (s0 : MainSt) : Option (MainSt × Option GameSt) :=
  let s := if s0.seen then s0 else firstRender cfg t
  let s := checkPlayerControl s
  let s := handleInput o input t s
  let s := checkPlayerVulnerability s
  let s := tickKill o t s
  let ns : Option GameSt :=
    if s.playerOutOfLives then some GameSt.endState else input.nextState
  let s := tickRespawn t s
  let s := shootEnemies cfg o t s
  let s := tickEnemySpawn cfg o t s
  match checkAsteroidCollisions sq cosD sinD cfg o s with
  | none => none
  | some s1 =>
      match tickLevel sq hypotF cfg o t (addExtraLifeSt s1) with
      | none => none
      | some s2 =>
          let s3 := enemyFire t s2
          match ns with
          | some st =>
              if st = GameSt.mainState then some (s3, some st)
              else some (prepareNextState s3, some st)
          | none => some (s3, none)

/-- The concrete parent asteroid used by the C2 witness. -/
def c2ParentW : AsteroidM :=
  { state := 3
    imageNumber := 0
    velocity := 10
    direction := ⟨1, 0⟩
    spinAmount := 120
    pos := ⟨3, 4⟩
    explosionChannel := PyVal.soundChannel 1 }

/-- The concrete draw streams and the single asteroid produced by the
concrete Asteroid.spawn run used for the C7 witness and counterexample:
the sampled direction is (9/10, 1/100) against a threshold of 3/10. -/
def c7AstW : AsteroidM :=
  mkAsteroid (fun _ => 1) ((7 : ℤ) : ℚ) ⟨9/10, 1/100⟩ 0 ((150 : ℤ) : ℚ)
    ⟨0, 0⟩ (PyVal.soundChannel 0)

def c7SpawnW : Option (List AsteroidM) :=
  asteroidSpawn (fun _ => 1) (fun _ _ => 1000) (fun _ => 7)
    (fun _ j => if j = 0 then 9/10 else 1/100) (fun _ => 0)
    (fun _ _ => (0, 0)) (fun _ _ => 150) 1 (3/10) 400 300 5
    (PyVal.soundChannel 0) 20

/-- Concrete tick data for the C8 witness and counterexample. -/
def c8CfgW : MainCfg :=
  { playerFireRate := 10
    playerShotPower := 700
    playerBulletLifespan := 1
    enemyFireRate := 1
    enemyShotPower := 300
    enemyBulletLifespan := 1
    timeBetweenEnemySpawns := 40000
    enemyOverlapOffset := 5000
    minBrokenAsteroids := 2
    maxBrokenAsteroids := 3
    newAsteroidVelocityScale := 6/5
    maxNewAsteroids := 10
    levelAsteroidsOffset := 1
    minAsteroidDirAngle := 3/10
    minAsteroidDist := 100
    explosionChannel := PyVal.soundChannel 0
    fuel := 50 }

def c8AstW : AsteroidM :=
  { state := 1
    imageNumber := 0
    velocity := 10
    direction := ⟨1, 0⟩
    spinAmount := 120
    pos := ⟨0, 0⟩
    explosionChannel := PyVal.soundChannel 0 }

def c8InputW : InputDict :=
  { nextState := some GameSt.mainState
    playerHyperspace := false
    playerFire := false
    playerEngineOn := false
    playerEngineOff := false
    playerTurn := none }

def c8OracleW : TickOracle :=
  { hyperspaceSurvives := true
    playerCollisions := 1
    enemyShotSel := fun _ => false
    newEnemyGen := 1
    astHitSel := fun _ => none
    numToSpawnDraw := fun _ => 2
    hitImgDraw := fun _ _ => 0
    spawnSpeedDraw := fun _ => 7
    spawnDirDraw := fun _ _ => 1
    spawnImgDraw := fun _ => 0
    spawnPosDraw := fun _ _ => (0, 0)
    spawnSpinDraw := fun _ _ => 150
    playerCenter := ⟨400, 300⟩
    playerFacing := ⟨0, -1⟩
    playerHeight := 20 }

def c8StateW : MainSt :=
  { score := 0
    extraLifeTracker := 0
    playerOutOfLives := false
    level := 1
    player :=
      { lives := 1
        alive := true
        respawning := false
        inHyperspace := false
        remainsAlive := true
        gun := mkGun 100 700 1 }
    asteroids := [c8AstW]
    enemies := []
    shots := 0
    enemyShots := 0
    playerHitTime := 0
    prevEnemySpawn := 5000
    levelStartTime := 99999
    enemySpawned := false
    asteroidsSpawned := true
    levelStarted := true
    playerHasControl := true
    playerIsVulnerable := true
    seen := true }

/-- The concrete state for the C8 counterexample: the extra-life
tracker is at 9900 and the same fatal tick also has a player shot
destroy a state-1 asteroid, gaining 150 points. -/
def c8bOracleW : TickOracle :=
  { c8OracleW with astHitSel := fun i => if i = 0 then some true else none }

def c8bStateW : MainSt :=
  { c8StateW with extraLifeTracker := 9900 }

/-- C3: if the rect bottom is above the screen, checkCollide moves the
rect so its top equals the area height and changes nothing else (in
particular the horizontal position is untouched even if the rect is
also off-screen horizontally); and in every case at most one axis is
corrected, so the four elif corrections are mutually exclusive. -/
theorem c3_checkCollide_bottom_priority (r area : PyRect) :
    (r.bottom < 0 →
      checkCollide r area = r.setTop area.height ∧
      (checkCollide r area).top = area.height ∧
      (checkCollide r area).left = r.left) ∧
    ((checkCollide r area).left = r.left ∨
      (checkCollide r area).top = r.top) ∧
    (checkCollide r area).width = r.width ∧
    (checkCollide r area).height = r.height := by
  unfold checkCollide
  split_ifs with h1 h2 h3 h4 <;>
    simp_all [PyRect.setTop, PyRect.setBottom, PyRect.setLeft,
      PyRect.setRight, PyRect.bottom, PyRect.right]

/-- Witness for c3_checkCollide_bottom_priority: a rect off-screen above
and to the right at once; only the vertical wrap applies. -/
theorem c3_checkCollide_bottom_priority_witness :
    (PyRect.mk 50 (-30) 10 10).bottom < 0 ∧
    checkCollide (PyRect.mk 50 (-30) 10 10) (PyRect.mk 0 0 40 40) =
      PyRect.mk 50 40 10 10 := by
  refine ⟨by decide, ?_⟩
  have h := (c3_checkCollide_bottom_priority (PyRect.mk 50 (-30) 10 10)
    (PyRect.mk 0 0 40 40)).1 (by decide)
  exact h.1

/-- C4: Gun.fire returns nothing exactly when current_time is below
last_shot_time plus the stored fire interval, leaving the gun unchanged
then; on success it stamps last_shot_time and returns a Shot spawned at
the owner center plus facing times half the owner height, with velocity
shot_power times the facing direction; and two calls within one
interval give a shot then nothing, while a call after the interval
gives a shot again. -/
theorem c4_gunFire_gating (g : GunM) (c f : Vec2) (h t t1 t2 t3 : ℚ) :
    ((gunFire g t c f h).2 = none ↔ t < g.lastShotTime + g.fireRate) ∧
    (t < g.lastShotTime + g.fireRate → (gunFire g t c f h).1 = g) ∧
    (g.lastShotTime + g.fireRate ≤ t →
      (gunFire g t c f h).1 = { g with lastShotTime := t } ∧
      (gunFire g t c f h).2 =
        some (mkShot f (c.add (Vec2.scale (h / 2) f)) g.shotPower
          g.bulletLifespan) ∧
      ((gunFire g t c f h).2.map ShotM.velocity) =
        some (Vec2.scale g.shotPower f) ∧
      ((gunFire g t c f h).2.map ShotM.pos) =
        some (c.add (Vec2.scale (h / 2) f))) ∧
    (g.lastShotTime + g.fireRate ≤ t1 → t2 < t1 + g.fireRate →
      t1 + g.fireRate ≤ t3 →
      (gunFire g t1 c f h).2.isSome = true ∧
      (gunFire ((gunFire g t1 c f h).1) t2 c f h).2 = none ∧
      (gunFire ((gunFire g t1 c f h).1) t3 c f h).2.isSome = true) := by
  refine ⟨?_, ?_, ?_, ?_⟩
  · unfold gunFire
    split_ifs with hlt <;> simp [hlt]
  · intro hlt
    unfold gunFire
    rw [if_pos hlt]
  · intro hle
    unfold gunFire
    rw [if_neg (not_lt.mpr hle)]
    simp [mkShot]
  · intro h1 h2 h3
    have hfst : (gunFire g t1 c f h).1 = { g with lastShotTime := t1 } := by
      unfold gunFire
      rw [if_neg (not_lt.mpr h1)]
    refine ⟨?_, ?_, ?_⟩
    · unfold gunFire
      rw [if_neg (not_lt.mpr h1)]
      rfl
    · rw [hfst]
      unfold gunFire
      rw [if_pos (by simpa using h2)]
    · rw [hfst]
      unfold gunFire
      rw [if_neg (by simpa using not_lt.mpr h3)]
      rfl

/-- Witness for c4_gunFire_gating at a gun with interval 100 already
fired at time 500: time 550 is gated, times 600 and 700 are not. -/
theorem c4_gunFire_gating_witness :
    ((gunFire (GunM.mk 100 700 500 1) 550 ⟨0, 0⟩ ⟨0, -1⟩ 20).2 = none) ∧
    (gunFire (GunM.mk 100 700 500 1) 600 ⟨0, 0⟩ ⟨0, -1⟩ 20).2.isSome = true ∧
    (gunFire ((gunFire (GunM.mk 100 700 500 1) 600 ⟨0, 0⟩ ⟨0, -1⟩ 20).1)
      650 ⟨0, 0⟩ ⟨0, -1⟩ 20).2 = none := by
  have h := c4_gunFire_gating (GunM.mk 100 700 500 1) ⟨0, 0⟩ ⟨0, -1⟩ 20
    550 600 650 700
  refine ⟨(h.1).mpr (by norm_num), ?_, ?_⟩
  · exact (h.2.2.2 (by norm_num) (by norm_num) (by norm_num)).1
  · exact (h.2.2.2 (by norm_num) (by norm_num) (by norm_num)).2.1

/-- C10: a freshly constructed Gun has last_shot_time 0, so its first
fire call is gated whenever current_time is below one full fire
interval measured from clock time 0, even though no shot was ever
fired. -/
theorem c10_new_gun_cooldown (fireRate shotPower lifespan t : ℚ)
    (c f : Vec2) (hh : ℚ) (h : t < fireRate) :
    (mkGun fireRate shotPower lifespan).lastShotTime = 0 ∧
    (gunFire (mkGun fireRate shotPower lifespan) t c f hh).2 = none := by
  refine ⟨rfl, ?_⟩
  unfold gunFire mkGun
  rw [if_pos (by simpa using h)]

/-- Witness for c10_new_gun_cooldown: a new gun with interval 250 asked
to fire at time 100 returns nothing. -/
theorem c10_new_gun_cooldown_witness :
    (100 : ℚ) < 250 ∧
    (gunFire (mkGun 250 700 1) 100 ⟨0, 0⟩ ⟨0, -1⟩ 20).2 = none := by
  exact ⟨by norm_num,
    (c10_new_gun_cooldown 250 700 1 100 ⟨0, 0⟩ ⟨0, -1⟩ 20 (by norm_num)).2⟩

/-- C6: when the extra-life tracker has reached the target the check
grants exactly one life and leaves the tracker at its value modulo the
target, no matter how far it overshot; below the target it changes
nothing. -/
theorem c6_addExtraLife_single_grant (tracker lives : ℤ) :
    (EXTRA_LIFE_TARGET ≤ tracker →
      addExtraLife tracker lives = (tracker % EXTRA_LIFE_TARGET, lives + 1)) ∧
    (tracker < EXTRA_LIFE_TARGET →
      addExtraLife tracker lives = (tracker, lives)) := by
  unfold addExtraLife
  constructor
  · intro hge
    rw [if_pos hge]
  · intro hlt
    rw [if_neg (not_le.mpr hlt)]

/-- Witness for c6_addExtraLife_single_grant: a tracker of 23456 grants
one life (not two) and resets to 3456; a tracker of 9999 changes
nothing. -/
theorem c6_addExtraLife_single_grant_witness :
    addExtraLife 23456 2 = (3456, 3) ∧ addExtraLife 9999 2 = (9999, 2) := by
  constructor
  · rw [(c6_addExtraLife_single_grant 23456 2).1 (by decide)]
    decide
  · exact (c6_addExtraLife_single_grant 9999 2).2 (by decide)

/-- C5: the drag computed by Player._calc_velocity equals
0.5 * fluid_density * the squared velocity magnitude (stated against
the real square root); the computation never hits the zero-vector
normalize error, and at zero velocity the drag is 0 and the stored
velocity_direction is the zero vector, produced without a normalize
call. -/
theorem c5_calcVelocity_drag_safe (sq : ℚ → ℚ)
    (fluidDensity mass accelerationMagnitude deltaTime : ℚ)
    (facingDirection velocity : Vec2) :
    (calcVelocity sq fluidDensity mass accelerationMagnitude
      facingDirection velocity deltaTime).isSome = true ∧
    ((dragOf fluidDensity velocity : ℚ) : ℝ) =
      1 / 2 * (fluidDensity : ℝ) *
        Real.sqrt ((velocity.x : ℝ) ^ 2 + (velocity.y : ℝ) ^ 2) ^ 2 ∧
    (velocity.magSq = 0 →
      dragOf fluidDensity velocity = 0 ∧
      ((calcVelocity sq fluidDensity mass accelerationMagnitude
        facingDirection velocity deltaTime).map Prod.snd) =
        some ⟨0, 0⟩) := by
  refine ⟨?_, ?_, ?_⟩
  · unfold calcVelocity Vec2.normalize?
    split_ifs with h0 <;> simp
  · rw [Real.sq_sqrt (by positivity)]
    unfold dragOf Vec2.magSq
    push_cast
    ring
  · intro h0
    constructor
    · unfold dragOf
      rw [h0, mul_zero]
    · simp [calcVelocity, h0]

/-- Witness for c5_calcVelocity_drag_safe at zero velocity. -/
theorem c5_calcVelocity_drag_safe_witness :
    (Vec2.mk 0 0).magSq = 0 ∧
    dragOf 3 ⟨0, 0⟩ = 0 ∧
    ((calcVelocity (fun q => q) 3 5 200 ⟨0, -1⟩ ⟨0, 0⟩ (1 / 60)).map
      Prod.snd) = some ⟨0, 0⟩ := by
  have h0 : (Vec2.mk 0 0).magSq = 0 := by
    unfold Vec2.magSq
    norm_num
  have h := (c5_calcVelocity_drag_safe (fun q => q) 3 5 200 (1 / 60)
    ⟨0, -1⟩ ⟨0, 0⟩).2.2 h0
  exact ⟨h0, h.1, h.2⟩

/-- C1: evaluation of Asteroid.hit at the failing input.  A state-3
asteroid hit with number_to_spawn = 3 produces three children whose
states are 2, 2 and 3: the mirrored pair receives the decremented
state, but the final 180-degree fragment is built by the 6-argument
constructor call that binds the decremented state (here 2) to the
explosion_channel parameter, so its state falls back to the default 3.
This contradicts the claim that every child has state S - 1. -/
theorem c1_hit_odd_tail_state :
    ((asteroidHit (fun _ => 1) (fun _ => 1) (fun _ => 0)
        (fun k => (k : ℤ)) 1000
        (mkAsteroid (fun _ => 1) 10 ⟨1, 0⟩ 0 120 ⟨100, 100⟩
          (PyVal.soundChannel 0) 3)
        (6 / 5) 3).map
      (Option.map (List.map (fun a => (a.state, a.explosionChannel))))) =
    some (some [(2, PyVal.soundChannel 0), (2, PyVal.soundChannel 0),
                (3, PyVal.intVal 2)]) := by
  rfl

/-- Asteroid.hit at number_to_spawn = 2: one mirrored pair, rotated by
plus and minus 180/2 = 90 degrees, and no odd tail. -/
theorem asteroidHit_two_eval (sq cosD sinD : ℚ → ℚ) (draw : ℕ → ℤ)
    (fuel : ℕ) (a : AsteroidM) (vs : ℚ) (h3 : 1 < a.state) :
    asteroidHit sq cosD sinD draw fuel a vs 2 =
      match sampleNe draw (draw 0) fuel 1 with
      | none => none
      | some (second, _) =>
          some (some
            [mkAsteroid sq (a.velocity * vs)
              (a.direction.rotateDeg cosD sinD 90) (draw 0) a.spinAmount
              a.pos a.explosionChannel (a.state - 1),
             mkAsteroid sq (a.velocity * vs)
              (a.direction.rotateDeg cosD sinD (-90)) second a.spinAmount
              a.pos a.explosionChannel (a.state - 1)]) := by
  have hp : pyHalf (2 : ℤ) = 1 := by decide
  have hr2 : (180 : ℚ) / 2 = 90 := by norm_num
  rcases hsn : sampleNe draw (draw 0) fuel 1 with _ | ⟨second, k⟩
  · simp [asteroidHit, if_pos h3, hp, hitPairsLoop, hsn]
  · simp [asteroidHit, if_pos h3, hp, hitPairsLoop, hsn, hr2]

/-- C2: hitting a state-3 asteroid with velocity scale 1.2 and
number_to_spawn = 2 yields exactly two state-2 children, both at the
parent center, both with scalar velocity 1.2 times the parent velocity,
with directions the parent direction rotated by +90 and -90 degrees;
and hit on a state-1 asteroid returns None rather than an error.  The
trigonometric hypotheses record the real values of cosine/sine at
plus/minus 90 degrees and of the square root at 1, and hdir records
that the stored parent direction is a unit vector. -/
theorem c2_hit_state3_two_children (sq cosD sinD : ℚ → ℚ)
    (draw : ℕ → ℤ) (fuel : ℕ) (a : AsteroidM)
    (hsq : sq 1 = 1) (hc90 : cosD 90 = 0) (hs90 : sinD 90 = 1)
    (hcm90 : cosD (-90) = 0) (hsm90 : sinD (-90) = -1)
    (hst : a.state = 3) (hdir : a.direction.magSq = 1)
    (hsome : (asteroidHit sq cosD sinD draw fuel a (6/5) 2).isSome = true) :
    ((asteroidHit sq cosD sinD draw fuel a (6/5) 2).map
      (Option.map (List.map
        (fun c => (c.state, c.pos, c.velocity, c.direction))))) =
      some (some
        [(2, a.pos, a.velocity * (6/5),
            Vec2.mk (-a.direction.y) a.direction.x),
         (2, a.pos, a.velocity * (6/5),
            Vec2.mk a.direction.y (-a.direction.x))]) ∧
    (∀ b : AsteroidM, b.state = 1 → ∀ vs n,
      asteroidHit sq cosD sinD draw fuel b vs n = some none) := by
  have h3 : 1 < a.state := by rw [hst]; norm_num
  have heval := asteroidHit_two_eval sq cosD sinD draw fuel a (6/5) h3
  constructor
  · rcases hsn : sampleNe draw (draw 0) fuel 1 with _ | ⟨second, k⟩
    · rw [hsn] at heval
      rw [heval] at hsome
      simp at hsome
    · rw [hsn] at heval
      have hrot1 : a.direction.rotateDeg cosD sinD 90 =
          Vec2.mk (-a.direction.y) a.direction.x := by
        unfold Vec2.rotateDeg
        rw [hc90, hs90, Vec2.mk.injEq]
        constructor <;> ring
      have hrot2 : a.direction.rotateDeg cosD sinD (-90) =
          Vec2.mk a.direction.y (-a.direction.x) := by
        unfold Vec2.rotateDeg
        rw [hcm90, hsm90, Vec2.mk.injEq]
        constructor <;> ring
      have hmag1 : (Vec2.mk (-a.direction.y) a.direction.x).magSq = 1 := by
        unfold Vec2.magSq at hdir ⊢
        linear_combination hdir
      have hmag2 : (Vec2.mk a.direction.y (-a.direction.x)).magSq = 1 := by
        unfold Vec2.magSq at hdir ⊢
        linear_combination hdir
      have hnorm1 : Vec2.normalizeT sq (Vec2.mk (-a.direction.y) a.direction.x) =
          Vec2.mk (-a.direction.y) a.direction.x := by
        unfold Vec2.normalizeT Vec2.normalize?
        rw [hmag1]
        simp [hsq]
      have hnorm2 : Vec2.normalizeT sq (Vec2.mk a.direction.y (-a.direction.x)) =
          Vec2.mk a.direction.y (-a.direction.x) := by
        unfold Vec2.normalizeT Vec2.normalize?
        rw [hmag2]
        simp [hsq]
      rw [heval]
      simp [mkAsteroid, hrot1, hrot2, hnorm1, hnorm2, hst]
  · intro b hb vs n
    unfold asteroidHit
    rw [if_neg (by rw [hb]; norm_num)]

/-- Witness for c2_hit_state3_two_children at a concrete parent
asteroid with direction (1, 0) and concrete trig oracles. -/
theorem c2_hit_state3_two_children_witness :
    ((asteroidHit (fun _ => 1) (fun _ => 0)
        (fun q => if q = 90 then 1 else -1) (fun k => (k : ℤ)) 100
        c2ParentW (6/5) 2).map
      (Option.map (List.map
        (fun c => (c.state, c.pos, c.velocity, c.direction))))) =
      some (some
        [(2, Vec2.mk 3 4, 12, Vec2.mk 0 1),
         (2, Vec2.mk 3 4, 12, Vec2.mk 0 (-1))]) := by
  have h := c2_hit_state3_two_children (fun _ => 1) (fun _ => 0)
    (fun q => if q = 90 then 1 else -1) (fun k => (k : ℤ)) 100
    c2ParentW rfl rfl (by norm_num) rfl (by norm_num) rfl
    (by norm_num [c2ParentW, Vec2.magSq])
    (by norm_num [asteroidHit, c2ParentW, pyHalf, hitPairsLoop, sampleNe])
  rw [h.1]
  norm_num [c2ParentW, Vec2.mk.injEq]

/-- pyAbs agrees with the absolute value. -/
theorem pyAbs_eq_abs (q : ℚ) : pyAbs q = |q| := by
  unfold pyAbs
  split_ifs with h
  · rw [abs_of_neg h]
  · rw [abs_of_nonneg (not_lt.mp h)]

/-- Any vector returned by the random_angle_vector loop fails the loop
guard: at least one component has absolute value at or above the
threshold (but not necessarily both). -/
theorem randomAngleVectorGo_spec (draw : ℕ → ℚ) (minAngle : ℚ) :
    ∀ (fuel k : ℕ) (d v : Vec2),
      randomAngleVectorGo draw minAngle fuel k d = some v →
      minAngle ≤ |v.x| ∨ minAngle ≤ |v.y| := by
  intro fuel
  induction fuel with
  | zero =>
      intro k d v h
      simp [randomAngleVectorGo] at h
  | succ m ih =>
      intro k d v h
      unfold randomAngleVectorGo at h
      split_ifs at h with hcond
      · exact ih _ _ _ h
      · obtain rfl : d = v := by injection h
        rcases not_and_or.mp hcond with h1 | h1
        · exact Or.inl (pyAbs_eq_abs d.x ▸ not_lt.mp h1)
        · exact Or.inr (pyAbs_eq_abs d.y ▸ not_lt.mp h1)

/-- Invariant carried through the Asteroid.spawn loop: every produced
asteroid stores the normalization of a sampled direction that passed
the random_angle_vector exit condition. -/
theorem asteroidSpawnGo_direction (sq : ℚ → ℚ) (hypotF : ℚ → ℚ → ℚ)
    (speedDraw : ℕ → ℤ) (dirDraw : ℕ → ℕ → ℚ) (imgDraw : ℕ → ℤ)
    (posDraw : ℕ → ℕ → ℤ × ℤ) (spinDraw : ℕ → ℕ → ℤ)
    (minAngle ax ay md : ℚ) (chan : PyVal) (fuel : ℕ) :
    ∀ (n i : ℕ) (acc l : List AsteroidM),
      (∀ a ∈ acc, ∃ d : Vec2, a.direction = Vec2.normalizeT sq d ∧
        (minAngle ≤ |d.x| ∨ minAngle ≤ |d.y|)) →
      asteroidSpawnGo sq hypotF speedDraw dirDraw imgDraw posDraw
        spinDraw minAngle ax ay md chan fuel n i acc = some l →
      ∀ a ∈ l, ∃ d : Vec2, a.direction = Vec2.normalizeT sq d ∧
        (minAngle ≤ |d.x| ∨ minAngle ≤ |d.y|) := by
  intro n
  induction n with
  | zero =>
      intro i acc l hacc h
      unfold asteroidSpawnGo at h
      obtain rfl : acc = l := by injection h
      exact hacc
  | succ m ih =>
      intro i acc l hacc h
      unfold asteroidSpawnGo at h
      rcases hd : randomAngleVector (dirDraw i) minAngle fuel with _ | d
      · rw [hd] at h
        simp at h
      · rw [hd] at h
        rcases hp : randomPosition hypotF (posDraw i) md ax ay fuel
          with _ | p
        · rw [hp] at h
          simp at h
        · rw [hp] at h
          rcases hsp : spinLoop (spinDraw i) fuel 0 0 with _ | sp
          · rw [hsp] at h
            simp at h
          · rw [hsp] at h
            refine ih (i + 1) _ l ?_ h
            intro a ha
            rcases List.mem_append.mp ha with hmem | hmem
            · exact hacc a hmem
            · have ha2 : a = mkAsteroid sq ((speedDraw i : ℤ) : ℚ) d
                  (imgDraw i) ((sp : ℤ) : ℚ) p chan := by
                simpa using hmem
              refine ⟨d, ?_, ?_⟩
              · rw [ha2]
                rfl
              · exact randomAngleVectorGo_spec (dirDraw i) minAngle
                  fuel 0 ⟨0, 0⟩ d hd

/-- C7 (amended): every asteroid produced by Asteroid.spawn stores the
normalization of a sampled direction of which at least one component
has absolute value at or above the min-angle threshold; the rejection
loop does not bound both components, only the case where both are
below the threshold is resampled. -/
theorem c7_spawn_direction_amended (sq : ℚ → ℚ) (hypotF : ℚ → ℚ → ℚ)
    (speedDraw : ℕ → ℤ) (dirDraw : ℕ → ℕ → ℚ) (imgDraw : ℕ → ℤ)
    (posDraw : ℕ → ℕ → ℤ × ℤ) (spinDraw : ℕ → ℕ → ℤ)
    (numberOfAsteroids : ℕ) (minAngle ax ay md : ℚ) (chan : PyVal)
    (fuel : ℕ) (l : List AsteroidM)
    (h : asteroidSpawn sq hypotF speedDraw dirDraw imgDraw posDraw
      spinDraw numberOfAsteroids minAngle ax ay md chan fuel = some l) :
    ∀ a ∈ l, ∃ d : Vec2, a.direction = Vec2.normalizeT sq d ∧
      (minAngle ≤ |d.x| ∨ minAngle ≤ |d.y|) := by
  exact asteroidSpawnGo_direction sq hypotF speedDraw dirDraw imgDraw
    posDraw spinDraw minAngle ax ay md chan fuel numberOfAsteroids 0 [] l
    (by intro a ha; simp at ha) h

/-- Witness for c7_spawn_direction_amended on the concrete spawn. -/
theorem c7_spawn_direction_amended_witness :
    c7SpawnW = some [c7AstW] ∧
    ∃ d : Vec2, c7AstW.direction = Vec2.normalizeT (fun _ => 1) d ∧
      ((3 : ℚ)/10 ≤ |d.x| ∨ (3 : ℚ)/10 ≤ |d.y|) := by
  have hrun : c7SpawnW = some [c7AstW] := by with_unfolding_all rfl
  refine ⟨hrun, ?_⟩
  exact c7_spawn_direction_amended (fun _ => 1) (fun _ _ => 1000)
    (fun _ => 7) (fun _ j => if j = 0 then 9/10 else 1/100) (fun _ => 0)
    (fun _ _ => (0, 0)) (fun _ _ => 150) 1 (3/10) 400 300 5
    (PyVal.soundChannel 0) 20 [c7AstW] hrun c7AstW (by simp)

/-- C7 (counterexample): the concrete spawn returns an asteroid whose
direction is (9/10, 1/100) (the square-root oracle is constant 1, so
normalization leaves the sampled direction unchanged); its y component
does not exceed the threshold 3/10, refuting the claim that both
components always exceed it. -/
theorem c7_spawn_direction_counterexample :
    (c7SpawnW.map (List.map (fun a => a.direction))) =
      some [Vec2.mk (9/10) (1/100)] ∧
    ¬((3 : ℚ)/10 < |(9 : ℚ)/10| ∧ (3 : ℚ)/10 < |(1 : ℚ)/100|) := by
  constructor
  · with_unfolding_all rfl
  · intro hcl
    have h2 := hcl.2
    rw [abs_of_pos (by norm_num)] at h2
    norm_num at h2

/-- Inserting an element at or below every element of a list puts it in
front. -/
theorem insertDescStep_eq_cons (x : ℤ) :
    ∀ {l : List ℤ}, (∀ y ∈ l, y ≤ x) → insertDescStep x l = x :: l := by
  intro l
  induction l with
  | nil => intro _; rfl
  | cons h t ih =>
      intro hall
      unfold insertDescStep
      split_ifs with hge
      · have hx : h = x := le_antisymm (hall h (by simp)) hge
        rw [ih (fun y hy => hall y (by simp [hy]))]
        rw [hx]
      · rfl

/-- Python sorted(reverse=True) leaves an already descending list
unchanged. -/
theorem sortDesc_eq_self : ∀ {l : List ℤ},
    l.Pairwise (· ≥ ·) → sortDesc l = l := by
  intro l
  induction l with
  | nil => intro _; rfl
  | cons a t ih =>
      intro hp
      rcases List.pairwise_cons.mp hp with ⟨hall, ht⟩
      have : sortDesc (a :: t) = insertDescStep a (sortDesc t) := rfl
      rw [this, ih ht, insertDescStep_eq_cons a hall]

/-- If some member satisfies the predicate, the for-loop index search
succeeds. -/
theorem pyFindIdx_isSome (p : ℤ → Bool) :
    ∀ {l : List ℤ}, (∃ x ∈ l, p x = true) → ∃ i, pyFindIdx p l = some i := by
  intro l
  induction l with
  | nil => rintro ⟨x, hx, _⟩; simp at hx
  | cons h t ih =>
      rintro ⟨x, hx, hpx⟩
      unfold pyFindIdx
      by_cases hph : p h = true
      · exact ⟨0, by rw [if_pos hph]⟩
      · rcases List.mem_cons.mp hx with rfl | hxt
        · exact absurd hpx hph
        · obtain ⟨i, hi⟩ := ih ⟨x, hxt, hpx⟩
          exact ⟨i + 1, by rw [if_neg hph, hi]; rfl⟩

/-- The find-then-insert of Highscores.__init__ computes the
spec-level sorted-descending insertion (with append when no index is
found). -/
theorem specInsertDesc_via_pyFindIdx (n : ℤ) (hn : 0 < n) :
    ∀ l : List ℤ,
      (match pyFindIdx (fun s => decide (0 < n) && decide (s < n)) l with
       | some i => pyInsertIdx n i l
       | none => l ++ [n]) = specInsertDesc n l := by
  intro l
  induction l with
  | nil => rfl
  | cons h t ih =>
      have hpred : (fun s => decide (0 < n) && decide (s < n)) h =
          decide (h < n) := by simp [hn]
      by_cases hlt : h < n
      · have : pyFindIdx (fun s => decide (0 < n) && decide (s < n))
            (h :: t) = some 0 := by
          unfold pyFindIdx
          rw [if_pos (by simp [hn, hlt])]
        rw [this]
        unfold specInsertDesc
        rw [if_pos hlt]
        rfl
      · have hstep : pyFindIdx (fun s => decide (0 < n) && decide (s < n))
            (h :: t) =
            (pyFindIdx (fun s => decide (0 < n) && decide (s < n)) t).map
              (· + 1) := by
          have hd : pyFindIdx (fun s => decide (0 < n) && decide (s < n))
              (h :: t) =
              if (decide (0 < n) && decide (h < n)) = true then some 0
              else (pyFindIdx (fun s => decide (0 < n) && decide (s < n))
                t).map (· + 1) := rfl
          rw [hd, if_neg (by simp [hn, hlt])]
        rw [hstep]
        unfold specInsertDesc
        rw [if_neg (by omega)]
        rcases hf : pyFindIdx (fun s => decide (0 < n) && decide (s < n)) t
          with _ | i
        · have ih2 : t ++ [n] = specInsertDesc n t := by
            rw [hf] at ih
            exact ih
          show h :: (t ++ [n]) = h :: specInsertDesc n t
          rw [ih2]
        · have ih2 : pyInsertIdx n i t = specInsertDesc n t := by
            rw [hf] at ih
            exact ih
          show h :: pyInsertIdx n i t = h :: specInsertDesc n t
          rw [ih2]

/-- specInsertDesc grows the list by one element. -/
theorem specInsertDesc_length (n : ℤ) :
    ∀ l : List ℤ, (specInsertDesc n l).length = l.length + 1 := by
  intro l
  induction l with
  | nil => rfl
  | cons h t ih =>
      unfold specInsertDesc
      split_ifs
      · rfl
      · simp only [List.length_cons, ih]

/-- Membership in a spec-level insertion. -/
theorem mem_specInsertDesc (n : ℤ) :
    ∀ {l : List ℤ} {x : ℤ}, x ∈ specInsertDesc n l → x = n ∨ x ∈ l := by
  intro l
  induction l with
  | nil =>
      intro x hx
      simp [specInsertDesc] at hx
      exact Or.inl hx
  | cons h t ih =>
      intro x hx
      unfold specInsertDesc at hx
      split_ifs at hx
      · rcases List.mem_cons.mp hx with rfl | hx2
        · exact Or.inl rfl
        · exact Or.inr hx2
      · rcases List.mem_cons.mp hx with rfl | hx2
        · exact Or.inr (by simp)
        · rcases ih hx2 with h1 | h1
          · exact Or.inl h1
          · exact Or.inr (by simp [h1])

/-- The spec-level insertion preserves descending order. -/
theorem specInsertDesc_pairwise (n : ℤ) :
    ∀ {l : List ℤ}, l.Pairwise (· ≥ ·) →
      (specInsertDesc n l).Pairwise (· ≥ ·) := by
  intro l
  induction l with
  | nil => intro _; simp [specInsertDesc]
  | cons h t ih =>
      intro hp
      rcases List.pairwise_cons.mp hp with ⟨hall, ht⟩
      unfold specInsertDesc
      split_ifs with hgt
      · refine List.pairwise_cons.mpr ⟨?_, hp⟩
        intro b hb
        rcases List.mem_cons.mp hb with rfl | hbt
        · exact le_of_lt hgt
        · exact le_trans (hall b hbt) (le_of_lt hgt)
      · refine List.pairwise_cons.mpr ⟨?_, ih ht⟩
        intro b hb
        rcases mem_specInsertDesc n hb with rfl | hbt
        · exact not_lt.mp hgt
        · exact hall b hbt

/-- A spec-level insertion is never empty. -/
theorem specInsertDesc_ne_nil (n : ℤ) :
    ∀ l : List ℤ, specInsertDesc n l ≠ [] := by
  intro l
  cases l with
  | nil => simp [specInsertDesc]
  | cons h t =>
      unfold specInsertDesc
      split_ifs <;> simp

/-- getLast? of a cons with a nonempty tail is the getLast? of the
tail. -/
theorem getLast?_cons_of_ne_nil (a : ℤ) :
    ∀ {l : List ℤ}, l ≠ [] → (a :: l).getLast? = l.getLast? := by
  intro l
  cases l with
  | nil => intro h; exact absurd rfl h
  | cons b t => intro _; exact List.getLast?_cons_cons

/-- Inserting a value strictly above the last element keeps the last
element. -/
theorem specInsertDesc_getLast? (n m : ℤ) (hmn : m < n) :
    ∀ {l : List ℤ}, l.getLast? = some m →
      (specInsertDesc n l).getLast? = some m := by
  intro l
  induction l with
  | nil => intro h; simp at h
  | cons h t ih =>
      intro hlast
      cases t with
      | nil =>
          simp at hlast
          subst hlast
          unfold specInsertDesc
          rw [if_pos hmn]
          rfl
      | cons b t2 =>
          rw [getLast?_cons_of_ne_nil h (by simp)] at hlast
          unfold specInsertDesc
          split_ifs with hgt
          · rw [getLast?_cons_of_ne_nil n (by simp),
              getLast?_cons_of_ne_nil h (by simp)]
            exact hlast
          · rw [getLast?_cons_of_ne_nil h (specInsertDesc_ne_nil n (b :: t2))]
            exact ih hlast

/-- A list is its dropLast plus its last element. -/
theorem dropLast_concat_of_getLast? :
    ∀ {l : List ℤ} {m : ℤ}, l.getLast? = some m → l.dropLast ++ [m] = l := by
  intro l
  induction l with
  | nil => intro m h; simp at h
  | cons a t ih =>
      intro m hlast
      cases t with
      | nil =>
          simp at hlast
          subst hlast
          rfl
      | cons b t2 =>
          rw [getLast?_cons_of_ne_nil a (by simp)] at hlast
          have : (a :: b :: t2).dropLast = a :: (b :: t2).dropLast := rfl
          rw [this, List.cons_append, ih hlast]

/-- The Python insert at the found index agrees with the spec
insertion on the actual (unsorted-parameter) list when that list is
already sorted, via specInsertDesc_via_pyFindIdx. -/
theorem c9_highscores_insertion (hs : List ℤ) (n m : ℤ)
    (hlen : hs.length = 5) (hsorted : hs.Pairwise (· ≥ ·))
    (hlast : hs.getLast? = some m) (hm : 0 ≤ m) (hmn : m < n) :
    highscoresFinal hs n = (specInsertDesc n hs).dropLast ∧
    specInsertDesc n hs = highscoresFinal hs n ++ [m] ∧
    (highscoresFinal hs n).length = 5 := by
  have hn : 0 < n := lt_of_le_of_lt hm hmn
  have hss : sortDesc hs = hs := sortDesc_eq_self hsorted
  have hmem : m ∈ hs := by
    have := dropLast_concat_of_getLast? hlast
    rw [← this]
    simp
  obtain ⟨i, hi⟩ := pyFindIdx_isSome
    (fun s => decide (0 < n) && decide (s < n))
    ⟨m, hmem, by simp [hn, hmn]⟩
  have hkey : pyInsertIdx n i hs = specInsertDesc n hs := by
    have hvia := specInsertDesc_via_pyFindIdx n hn hs
    rw [hi] at hvia
    exact hvia
  have hins : (highscoresInsert hs n).1 = (specInsertDesc n hs).dropLast := by
    unfold highscoresInsert
    rw [if_pos (by omega), hss, hi]
    simp only
    rw [hkey]
  have hsorted6 : (specInsertDesc n hs).Pairwise (· ≥ ·) :=
    specInsertDesc_pairwise n hsorted
  have hsorted5 : ((specInsertDesc n hs).dropLast).Pairwise (· ≥ ·) :=
    hsorted6.sublist (List.dropLast_sublist _)
  have hfin : highscoresFinal hs n = (specInsertDesc n hs).dropLast := by
    unfold highscoresFinal
    rw [hins]
    exact sortDesc_eq_self hsorted5
  refine ⟨hfin, ?_, ?_⟩
  · rw [hfin]
    exact (dropLast_concat_of_getLast?
      (specInsertDesc_getLast? n m hmn hlast)).symm
  · rw [hfin, List.length_dropLast, specInsertDesc_length, hlen]

/-- Witness for c9_highscores_insertion: list [50, 40, 30, 20, 10] and
new score 35; the result keeps 5 entries, 35 lands between 40 and 30,
and 10 is dropped. -/
theorem c9_highscores_insertion_witness :
    highscoresFinal [50, 40, 30, 20, 10] 35 = [50, 40, 35, 30, 20] ∧
    (highscoresFinal [50, 40, 30, 20, 10] 35).length = 5 := by
  have h := c9_highscores_insertion [50, 40, 30, 20, 10] 35 10 rfl
    (by decide) rfl (by decide) (by decide)
  have hspec : specInsertDesc 35 [50, 40, 30, 20, 10] =
      [50, 40, 35, 30, 20, 10] := by decide
  constructor
  · rw [h.1, hspec]
    rfl
  · exact h.2.2


/-- With no hyperspace request, _handle_input can only touch the gun
and the shots group. -/
theorem handleInput_shape (o : TickOracle) (input : InputDict) (t : ℚ)
    (s : MainSt) (h : input.playerHyperspace = false) :
    ∃ g sh, handleInput o input t s =
      { s with player := { s.player with gun := g }, shots := sh } := by
  unfold handleInput
  rw [h]
  by_cases hc : s.playerHasControl = true
  · rw [if_pos hc]
    simp only [Bool.false_eq_true, if_false]
    by_cases hf : input.playerFire = true
    · rw [if_pos hf]
      rcases (gunFire s.player.gun t o.playerCenter o.playerFacing
        o.playerHeight).2 with _ | sh
      · exact ⟨_, _, rfl⟩
      · exact ⟨_, _, rfl⟩
    · rw [if_neg hf]
      exact ⟨s.player.gun, s.shots, rfl⟩
  · rw [if_neg hc]
    exact ⟨s.player.gun, s.shots, rfl⟩

/-- The kill block when the player is vulnerable and the collision dict
is nonempty. -/
theorem tickKill_eq (o : TickOracle) (t : ℚ) (s : MainSt)
    (hV : s.playerIsVulnerable = true) (hc : 0 < o.playerCollisions) :
    tickKill o t s =
      { s with
          player :=
            { s.player with
                lives := s.player.lives - 1
                alive := false }
          playerHitTime := t
          playerOutOfLives := decide (s.player.lives - 1 < 1) } := by
  unfold tickKill killPlayer
  rw [if_pos hV, if_pos (Or.inl hc)]

/-- The respawn-delay block does nothing once the player is out of
lives. -/
theorem tickRespawn_skip (t : ℚ) (s : MainSt)
    (h : s.playerOutOfLives = true) : tickRespawn t s = s := by
  unfold tickRespawn
  rw [if_neg]
  intro hcon
  rw [h] at hcon
  simp at hcon

/-- The _shoot_enemies loop never touches the player or the
out-of-lives flag, and raises score and tracker by the same amount. -/
theorem shootEnemiesGo_pres (cfg : MainCfg) (sel : ℕ → Bool) (t : ℚ) :
    ∀ (l : List EnemySt) (i : ℕ) (s : MainSt),
      (shootEnemiesGo cfg sel t l i s).player = s.player ∧
      (shootEnemiesGo cfg sel t l i s).playerOutOfLives =
        s.playerOutOfLives ∧
      (shootEnemiesGo cfg sel t l i s).extraLifeTracker + s.score =
        (shootEnemiesGo cfg sel t l i s).score + s.extraLifeTracker := by
  intro l
  induction l with
  | nil =>
      intro i s
      refine ⟨rfl, rfl, ?_⟩
      show s.extraLifeTracker + s.score = s.score + s.extraLifeTracker
      omega
  | cons e rest ih =>
      intro i s
      unfold shootEnemiesGo
      split_ifs with hsel
      · obtain ⟨h1, h2, h3⟩ := ih (i + 1) (shootEnemyUpd cfg t e s)
        have e1 : (shootEnemyUpd cfg t e s).player = s.player := rfl
        have e2 : (shootEnemyUpd cfg t e s).playerOutOfLives =
            s.playerOutOfLives := rfl
        have e3 : (shootEnemyUpd cfg t e s).score =
            s.score + BASE_SCORE * e.stateVal := rfl
        have e4 : (shootEnemyUpd cfg t e s).extraLifeTracker =
            s.extraLifeTracker + BASE_SCORE * e.stateVal := rfl
        rw [e3, e4] at h3
        exact ⟨h1.trans e1, h2.trans e2, by omega⟩
      · exact ih (i + 1) s

/-- _shoot_enemies preserves the player and the out-of-lives flag and
keeps score and tracker in sync. -/
theorem shootEnemies_pres (cfg : MainCfg) (o : TickOracle) (t : ℚ)
    (s : MainSt) :
    (shootEnemies cfg o t s).player = s.player ∧
    (shootEnemies cfg o t s).playerOutOfLives = s.playerOutOfLives ∧
    (shootEnemies cfg o t s).extraLifeTracker + s.score =
      (shootEnemies cfg o t s).score + s.extraLifeTracker := by
  have h := shootEnemiesGo_pres cfg o.enemyShotSel t s.enemies 0 s
  exact ⟨h.1, h.2.1, h.2.2⟩

/-- The enemy-spawn gate preserves the player, the flag, the score and
the tracker. -/
theorem tickEnemySpawn_pres (cfg : MainCfg) (o : TickOracle) (t : ℚ)
    (s : MainSt) :
    (tickEnemySpawn cfg o t s).player = s.player ∧
    (tickEnemySpawn cfg o t s).playerOutOfLives = s.playerOutOfLives ∧
    (tickEnemySpawn cfg o t s).score = s.score ∧
    (tickEnemySpawn cfg o t s).extraLifeTracker = s.extraLifeTracker := by
  unfold tickEnemySpawn spawnEnemy
  split_ifs <;> exact ⟨rfl, rfl, rfl, rfl⟩

/-- The _check_asteroid_collisions loop never touches the player or the
flag, and raises score and tracker by the same amount. -/
theorem astCollGo_pres (sq cosD sinD : ℚ → ℚ) (cfg : MainCfg)
    (o : TickOracle) :
    ∀ (pairs : List (AsteroidM × Bool)) (j : ℕ) (s r : MainSt),
      astCollGo sq cosD sinD cfg o pairs j s = some r →
      r.player = s.player ∧
      r.playerOutOfLives = s.playerOutOfLives ∧
      r.extraLifeTracker + s.score = r.score + s.extraLifeTracker := by
  intro pairs
  induction pairs with
  | nil =>
      intro j s r h
      have h2 : s = r := by injection h
      subst h2
      exact ⟨rfl, rfl, by omega⟩
  | cons p rest ih =>
      intro j s r h
      rcases p with ⟨a, byPlayer⟩
      unfold astCollGo at h
      by_cases hbp : byPlayer = true
      all_goals simp only [hbp, Bool.false_eq_true, if_true, if_false] at h
      · rcases hhit : asteroidHit sq cosD sinD (o.hitImgDraw j) cfg.fuel
            a cfg.newAsteroidVelocityScale (o.numToSpawnDraw j)
            with _ | oc
        · rw [hhit] at h
          simp at h
        · rw [hhit] at h
          have e1 : (astScoreUpd a s).player = s.player := rfl
          have e2 : (astScoreUpd a s).playerOutOfLives =
              s.playerOutOfLives := rfl
          have e3 : (astScoreUpd a s).score =
              s.score + Int.tdiv BASE_SCORE a.state := rfl
          have e4 : (astScoreUpd a s).extraLifeTracker =
              s.extraLifeTracker + Int.tdiv BASE_SCORE a.state := rfl
          rcases oc with _ | children
          · obtain ⟨h1, h2, h3⟩ := ih (j + 1) (astScoreUpd a s) r h
            rw [e3, e4] at h3
            exact ⟨h1.trans e1, h2.trans e2, by omega⟩
          · obtain ⟨h1, h2, h3⟩ :=
              ih (j + 1) (astAddChildren children (astScoreUpd a s)) r h
            have f1 : (astAddChildren children (astScoreUpd a s)).player
                = s.player := rfl
            have f2 : (astAddChildren children
                (astScoreUpd a s)).playerOutOfLives =
                s.playerOutOfLives := rfl
            have f3 : (astAddChildren children (astScoreUpd a s)).score
                = s.score + Int.tdiv BASE_SCORE a.state := rfl
            have f4 : (astAddChildren children
                (astScoreUpd a s)).extraLifeTracker =
                s.extraLifeTracker + Int.tdiv BASE_SCORE a.state := rfl
            rw [f3, f4] at h3
            exact ⟨h1.trans f1, h2.trans f2, by omega⟩
      · rcases hhit : asteroidHit sq cosD sinD (o.hitImgDraw j) cfg.fuel
            a cfg.newAsteroidVelocityScale (o.numToSpawnDraw j)
            with _ | oc
        · rw [hhit] at h
          simp at h
        · rw [hhit] at h
          rcases oc with _ | children
          · exact ih (j + 1) s r h
          · obtain ⟨h1, h2, h3⟩ := ih (j + 1) (astAddChildren children s) r h
            have f1 : (astAddChildren children s).player = s.player := rfl
            have f2 : (astAddChildren children s).playerOutOfLives =
                s.playerOutOfLives := rfl
            have f3 : (astAddChildren children s).score = s.score := rfl
            have f4 : (astAddChildren children s).extraLifeTracker =
                s.extraLifeTracker := rfl
            rw [f3, f4] at h3
            exact ⟨h1.trans f1, h2.trans f2, by omega⟩

/-- _check_asteroid_collisions preserves the player and the flag and
keeps score and tracker in sync. -/
theorem checkAsteroidCollisions_pres (sq cosD sinD : ℚ → ℚ)
    (cfg : MainCfg) (o : TickOracle) (s r : MainSt)
    (h : checkAsteroidCollisions sq cosD sinD cfg o s = some r) :
    r.player = s.player ∧
    r.playerOutOfLives = s.playerOutOfLives ∧
    r.extraLifeTracker + s.score = r.score + s.extraLifeTracker := by
  simp only [checkAsteroidCollisions] at h
  obtain ⟨h1, h2, h3⟩ := astCollGo_pres sq cosD sinD cfg o _ 0 _ r h
  exact ⟨h1, h2, h3⟩

/-- The extra-life check applied to the tick state: score is untouched,
lives gain one exactly when the tracker reached the target. -/
theorem addExtraLifeSt_proj (s : MainSt) :
    (addExtraLifeSt s).score = s.score ∧
    (addExtraLifeSt s).playerOutOfLives = s.playerOutOfLives ∧
    (addExtraLifeSt s).player.lives =
      (if EXTRA_LIFE_TARGET ≤ s.extraLifeTracker
       then s.player.lives + 1 else s.player.lives) := by
  refine ⟨rfl, rfl, ?_⟩
  show (addExtraLife s.extraLifeTracker s.player.lives).2 = _
  unfold addExtraLife
  split_ifs with hge
  · rfl
  · rfl

/-- _start_next_level only adds asteroids and sets the level flags. -/
theorem startNextLevel_pres (sq : ℚ → ℚ) (hypotF : ℚ → ℚ → ℚ)
    (cfg : MainCfg) (o : TickOracle) (s r : MainSt)
    (h : startNextLevel sq hypotF cfg o s = some r) :
    r.player = s.player ∧ r.score = s.score ∧
    r.extraLifeTracker = s.extraLifeTracker ∧
    r.playerOutOfLives = s.playerOutOfLives := by
  simp only [startNextLevel] at h
  rcases hw : asteroidSpawn sq hypotF o.spawnSpeedDraw o.spawnDirDraw
      o.spawnImgDraw o.spawnPosDraw o.spawnSpinDraw
      (min cfg.maxNewAsteroids (s.level + cfg.levelAsteroidsOffset)).toNat
      cfg.minAsteroidDirAngle o.playerCenter.x o.playerCenter.y
      cfg.minAsteroidDist cfg.explosionChannel cfg.fuel with _ | wave
  · rw [hw] at h
    simp at h
  · rw [hw] at h
    have h2 := Option.some.inj h
    subst h2
    exact ⟨rfl, rfl, rfl, rfl⟩

/-- The level-advance block preserves lives, score, tracker and the
out-of-lives flag. -/
theorem tickLevel_pres (sq : ℚ → ℚ) (hypotF : ℚ → ℚ → ℚ)
    (cfg : MainCfg) (o : TickOracle) (t : ℚ) (s r : MainSt)
    (h : tickLevel sq hypotF cfg o t s = some r) :
    r.player.lives = s.player.lives ∧ r.score = s.score ∧
    r.extraLifeTracker = s.extraLifeTracker ∧
    r.playerOutOfLives = s.playerOutOfLives := by
  unfold tickLevel at h
  by_cases hempty : s.asteroids = [] ∧ s.enemies = []
  · rw [if_pos hempty] at h
    by_cases hsp : s.asteroidsSpawned = true
    · simp only [hsp, if_true] at h
      by_cases ht : 0 ≤ t - (startLevelTransition t s).levelStartTime
      · rw [if_pos ht] at h
        obtain ⟨h1, h2, h3, h4⟩ := startNextLevel_pres sq hypotF cfg o
          (startLevelTransition t s) r h
        rw [h1]
        exact ⟨rfl, h2, h3, h4⟩
      · rw [if_neg ht] at h
        have h2 : startLevelTransition t s = r := by injection h
        subst h2
        exact ⟨rfl, rfl, rfl, rfl⟩
    · have hsp2 : s.asteroidsSpawned = false := by
        revert hsp
        cases s.asteroidsSpawned <;> simp
      simp only [hsp2, Bool.false_eq_true, if_false] at h
      by_cases ht : 0 ≤ t - s.levelStartTime
      · rw [if_pos ht] at h
        obtain ⟨h1, h2, h3, h4⟩ := startNextLevel_pres sq hypotF cfg o s r h
        rw [h1]
        exact ⟨rfl, h2, h3, h4⟩
      · rw [if_neg ht] at h
        have h2 : s = r := by injection h
        subst h2
        exact ⟨rfl, rfl, rfl, rfl⟩
  · rw [if_neg hempty] at h
    have h2 : s = r := by injection h
    subst h2
    exact ⟨rfl, rfl, rfl, rfl⟩

/-- C8 (amended): a vulnerable player with one life who collides on a
tick of Main.update loses that life and the update returns the End
state on that same tick; end-of-tick lives are 0 unless the score gain
of the same tick (visible as the score delta) pushed the extra-life tracker
to its target, in which case the extra-life check, which runs after the
death check, put lives back at 1.  The End transition happens in every
case. -/
theorem c8_end_transition_amended (sq cosD sinD : ℚ → ℚ)
    (hypotF : ℚ → ℚ → ℚ) (cfg : MainCfg) (o : TickOracle)
    (input : InputDict) (t : ℚ) (s : MainSt)
    (hseen : s.seen = true) (halive : s.player.alive = true)
    (hhyp : s.player.inHyperspace = false)
    (hresp : s.player.respawning = false)
    (hlives : s.player.lives = 1) (_hout : s.playerOutOfLives = false)
    (hinput : input.playerHyperspace = false)
    (hcoll : 0 < o.playerCollisions) :
    ∀ r, mainUpdate sq cosD sinD hypotF cfg o input t s = some r →
      r.2 = some GameSt.endState ∧
      r.1.player.lives =
        (if EXTRA_LIFE_TARGET ≤ s.extraLifeTracker + (r.1.score - s.score)
         then 1 else 0) := by
  intro r hres
  rcases r with ⟨r1, r2⟩
  simp only [mainUpdate] at hres
  have hseenif : (if s.seen = true then s else firstRender cfg t) = s := by
    rw [hseen]
    rfl
  rw [hseenif] at hres
  obtain ⟨g1, sh1, hB⟩ :=
    handleInput_shape o input t (checkPlayerControl s) hinput
  have hCvul : (checkPlayerVulnerability
      (handleInput o input t (checkPlayerControl s))).playerIsVulnerable
      = true := by
    rw [hB]
    show ((s.player.alive && !s.player.inHyperspace)
      && !s.player.respawning) = true
    rw [halive, hhyp, hresp]
    rfl
  have hClives : (checkPlayerVulnerability
      (handleInput o input t (checkPlayerControl s))).player.lives
      = 1 := by
    rw [hB]
    exact hlives
  have hCscore : (checkPlayerVulnerability
      (handleInput o input t (checkPlayerControl s))).score
      = s.score := by
    rw [hB]
    rfl
  have hCtracker : (checkPlayerVulnerability
      (handleInput o input t (checkPlayerControl s))).extraLifeTracker
      = s.extraLifeTracker := by
    rw [hB]
    rfl
  have hD := tickKill_eq o t (checkPlayerVulnerability
    (handleInput o input t (checkPlayerControl s))) hCvul hcoll
  have hDout : (tickKill o t (checkPlayerVulnerability
      (handleInput o input t (checkPlayerControl s)))).playerOutOfLives
      = true := by
    rw [hD]
    show decide ((checkPlayerVulnerability
      (handleInput o input t (checkPlayerControl s))).player.lives - 1
        < 1) = true
    rw [hClives]
    rfl
  have hDlives : (tickKill o t (checkPlayerVulnerability
      (handleInput o input t (checkPlayerControl s)))).player.lives
      = 0 := by
    rw [hD]
    show (checkPlayerVulnerability
      (handleInput o input t (checkPlayerControl s))).player.lives - 1
        = 0
    rw [hClives]
    rfl
  have hDscore : (tickKill o t (checkPlayerVulnerability
      (handleInput o input t (checkPlayerControl s)))).score
      = s.score := by
    rw [hD]
    exact hCscore
  have hDtracker : (tickKill o t (checkPlayerVulnerability
      (handleInput o input t (checkPlayerControl s)))).extraLifeTracker
      = s.extraLifeTracker := by
    rw [hD]
    exact hCtracker
  rw [tickRespawn_skip t _ hDout] at hres
  obtain ⟨hF1, hF2, hF3⟩ := shootEnemies_pres cfg o t
    (tickKill o t (checkPlayerVulnerability
      (handleInput o input t (checkPlayerControl s))))
  obtain ⟨hG1, hG2, hG3, hG4⟩ := tickEnemySpawn_pres cfg o t
    (shootEnemies cfg o t (tickKill o t (checkPlayerVulnerability
      (handleInput o input t (checkPlayerControl s)))))
  split at hres
  next hcacEq =>
    simp at hres
  next s1 hcacEq =>
    obtain ⟨hP1, hP2, hP3⟩ := checkAsteroidCollisions_pres sq cosD sinD
      cfg o _ s1 hcacEq
    split at hres
    next hlevEq =>
      simp at hres
    next s2 hlevEq =>
      obtain ⟨hL1, hL2, hL3, hL4⟩ := tickLevel_pres sq hypotF cfg o t
        (addExtraLifeSt s1) s2 hlevEq
      rw [hDout] at hres
      have hres2 : (if GameSt.endState = GameSt.mainState
          then some (enemyFire t s2, some GameSt.endState)
          else some (prepareNextState (enemyFire t s2),
            some GameSt.endState)) = some (r1, r2) := hres
      rw [if_neg (by intro hcon; cases hcon)] at hres2
      have hpair := Option.some.inj hres2
      have hr1 : prepareNextState (enemyFire t s2) = r1 :=
        congrArg Prod.fst hpair
      have hr2 : some GameSt.endState = r2 :=
        congrArg Prod.snd hpair
      constructor
      · exact hr2.symm
      · have hlives1 : s1.player.lives = 0 := by
          rw [hP1, hG1, hF1]
          exact hDlives
        have haddlives : (addExtraLifeSt s1).player.lives =
            (if EXTRA_LIFE_TARGET ≤ s1.extraLifeTracker
             then 1 else 0) := by
          rw [(addExtraLifeSt_proj s1).2.2, hlives1]
          split_ifs <;> rfl
        have hr1lives : r1.player.lives =
            (if EXTRA_LIFE_TARGET ≤ s1.extraLifeTracker
             then 1 else 0) := by
          rw [← hr1]
          show s2.player.lives = _
          rw [hL1, haddlives]
        have hr1score : r1.score = s1.score := by
          rw [← hr1]
          show s2.score = s1.score
          rw [hL2]
          exact (addExtraLifeSt_proj s1).1
        have hsync : s1.extraLifeTracker + s.score =
            s1.score + s.extraLifeTracker := by
          rw [hG3, hG4] at hP3
          rw [hDscore, hDtracker] at hF3
          omega
        have hcond : s.extraLifeTracker + ((r1, r2).1.score - s.score) =
            s1.extraLifeTracker := by
          show s.extraLifeTracker + (r1.score - s.score) = _
          rw [hr1score]
          omega
        show (r1, r2).1.player.lives = _
        rw [hcond]
        show r1.player.lives = _
        rw [hr1lives]

/-- Witness for c8_end_transition_amended: a concrete fatal tick in
which no score is gained, so lives end at 0 and the End state is
returned. -/
theorem c8_end_transition_amended_witness :
    (mainUpdate (fun _ => 1) (fun _ => 1) (fun _ => 0) (fun _ _ => 1000)
      c8CfgW c8OracleW c8InputW 5000 c8StateW).map
      (fun r => (r.2, r.1.player.lives)) =
      some (some GameSt.endState, 0) := by
  obtain ⟨r, hr⟩ : ∃ r, mainUpdate (fun _ => 1) (fun _ => 1) (fun _ => 0)
      (fun _ _ => 1000) c8CfgW c8OracleW c8InputW 5000 c8StateW =
      some r := ⟨_, by with_unfolding_all rfl⟩
  have h := c8_end_transition_amended (fun _ => 1) (fun _ => 1)
    (fun _ => 0) (fun _ _ => 1000) c8CfgW c8OracleW c8InputW 5000
    c8StateW rfl rfl rfl rfl rfl rfl rfl (by decide) r hr
  have hsc : r.1.score = 0 := by
    have h2 : (mainUpdate (fun _ => 1) (fun _ => 1) (fun _ => 0)
        (fun _ _ => 1000) c8CfgW c8OracleW c8InputW 5000 c8StateW).map
        (fun r => r.1.score) = some 0 := by with_unfolding_all rfl
    rw [hr] at h2
    simpa using h2
  have hlives : r.1.player.lives = 0 := by
    rw [h.2, hsc]
    norm_num [c8StateW, EXTRA_LIFE_TARGET]
  rw [hr]
  show some (r.2, r.1.player.lives) = some (some GameSt.endState, 0)
  rw [h.1, hlives]

/-- C8 (counterexample): in the concrete fatal tick the update returns
the End state, but end-of-tick lives are 1, not 0: the 150 points
gained in the same tick push the tracker from 9900 past the
10000-point target, and _add_extra_life runs after the death check and
grants a life back.  The claim that lives are 0 at the end of that tick
is false. -/
theorem c8_end_transition_counterexample :
    c8bStateW.player.lives = 1 ∧ c8bStateW.player.alive = true ∧
    c8bStateW.player.inHyperspace = false ∧
    c8bStateW.player.respawning = false ∧
    0 < c8bOracleW.playerCollisions ∧
    (mainUpdate (fun _ => 1) (fun _ => 1) (fun _ => 0) (fun _ _ => 1000)
      c8CfgW c8bOracleW c8InputW 5000 c8bStateW).map
      (fun r => (r.2, r.1.player.lives)) =
      some (some GameSt.endState, 1) := by
  refine ⟨rfl, rfl, rfl, rfl, by decide, ?_⟩
  with_unfolding_all rfl
